import Mathlib

/-!
Shallow embedding of the SumGame game-state engine (src/src/App.tsx).

The engine state lives in React `useState` hooks; here it is a single
`GameState` record.  Randomness (`Math.random`) is modelled by an injected
stream `rng : ℕ → ℕ` carried in the state together with a position `seed`;
a JavaScript draw `Math.floor(Math.random() * n) + k` becomes
`rng seed % n + k`.  Tile ids (`generateId`, a random string) are modelled
by a fresh-id counter `nextId`.  Numbers: tile values, sums, targets are
naturals; the score is an integer (a JS number holding integer values);
`timeLeft` is an exact rational (a JS float in the source).  Row indices
are integers because row advancement decrements them and tests for `< 0`.
-/

namespace SumGame

inductive GameMode where
  | classic
  | time
deriving DecidableEq

/-- A tile on the board: `Block` in src/types/game.ts. -/
structure Block where
  id : ℕ
  value : ℕ
  row : ℤ
  col : ℕ
deriving DecidableEq

/-- Grid constants from src/types/game.ts. -/
def GRID_COLS : ℕ := 6

def GRID_ROWS : ℕ := 10

def INITIAL_ROWS : ℕ := 4

def TIME_LIMIT : ℚ := 10

/-- The engine state: the `useState` hooks of `App` that the game rules touch,
plus the modelled random stream (`rng`, `seed`) and fresh-id counter `nextId`. -/
structure GameState where
  mode : GameMode
  blocks : List Block
  selectedIds : List ℕ
  targetSum : ℕ
  score : ℤ
  isGameOver : Bool
  timeLeft : ℚ
  isPaused : Bool
  rng : ℕ → ℕ
  seed : ℕ
  nextId : ℕ

/-- Source: `getRandomValue = () => Math.floor(Math.random() * 9) + 1`. -/
def getRandomValue (r : ℕ) : ℕ := r % 9 + 1

/-- Source: `generateTarget`, `Math.floor(Math.random() * 16) + 10`. -/
def generateTarget (r : ℕ) : ℕ := r % 16 + 10

/-- Source: `addNewRow`.  Shift every block up one row; if any shifted block
has a negative row index, set game over and keep the pre-shift board;
otherwise append a full new bottom row of freshly generated blocks. -/
def newBottomRow (st : GameState) : List Block :=
  (List.range GRID_COLS).map fun c =>
    { id := st.nextId + c
      value := getRandomValue (st.rng (st.seed + c))
      row := (GRID_ROWS : ℤ) - 1
      col := c }

def addNewRow (st : GameState) : GameState :=
  if (st.blocks.map fun b => { b with row := b.row - 1 }).any
      fun b => decide (b.row < 0) then
    { st with isGameOver := true }
  else
    { st with
        blocks := (st.blocks.map fun b => { b with row := b.row - 1 }) ++ newBottomRow st
        nextId := st.nextId + GRID_COLS
        seed := st.seed + GRID_COLS }

/-- The initial board built by `startGame`: the two nested loops
`for r = GRID_ROWS - INITIAL_ROWS .. GRID_ROWS - 1, for c = 0 .. GRID_COLS - 1`
flattened to one index `k = (r - (GRID_ROWS - INITIAL_ROWS)) * GRID_COLS + c`,
pushing blocks in the same row-major order as the source. -/
def initBlocks (rng : ℕ → ℕ) (seed : ℕ) (nid : ℕ) : List Block :=
  (List.range (INITIAL_ROWS * GRID_COLS)).map fun k =>
    { id := nid + k
      value := getRandomValue (rng (seed + k))
      row := ((GRID_ROWS - INITIAL_ROWS : ℕ) : ℤ) + (k / GRID_COLS : ℕ)
      col := k % GRID_COLS }

/-- Source: `startGame`.  Sets mode, clears game-over, score and selection,
draws a fresh target, resets the clock and rebuilds the board.  Note: the
source does NOT touch `isPaused`, so the flag is carried over from the
prior state. -/
def startGame (m : GameMode) (st : GameState) : GameState :=
  { mode := m
    isGameOver := false
    score := 0
    selectedIds := []
    targetSum := generateTarget (st.rng st.seed)
    timeLeft := TIME_LIMIT
    blocks := initBlocks st.rng (st.seed + 1) st.nextId
    isPaused := st.isPaused
    rng := st.rng
    seed := st.seed + 1 + INITIAL_ROWS * GRID_COLS
    nextId := st.nextId + INITIAL_ROWS * GRID_COLS }

/-- Source: `handleBlockClick`.  No-op when game over or paused; otherwise
toggles `id` in `selectedIds` (remove if present, append if absent).
There is no check that `id` references a block on the board. -/
def handleBlockClick (id : ℕ) (st : GameState) : GameState :=
  if st.isGameOver || st.isPaused then st
  else if st.selectedIds.contains id then
    { st with selectedIds := st.selectedIds.filter fun i => i != id }
  else
    { st with selectedIds := st.selectedIds ++ [id] }

/-- Source: the `currentSum` computation, `blocks.filter(b =>
selectedIds.includes(b.id)).reduce((sum, b) => sum + b.value, 0)`. -/
def currentSum (st : GameState) : ℕ :=
  (st.blocks.filter fun b => st.selectedIds.contains b.id).foldl
    (fun s b => s + b.value) 0

/-- The batched state update of the match branch of the match-check
`useEffect` (lines 119-152): score bump (`count * 10` plus, in time mode,
`Math.ceil(timeLeft)`), removal of the selected blocks, cleared selection,
fresh target, clock reset. -/
def matchState (st : GameState) : GameState :=
  { st with
      score := st.score + (st.selectedIds.length : ℤ) * 10 +
        (if st.mode = GameMode.time then ⌈st.timeLeft⌉ else 0)
      blocks := st.blocks.filter fun b => !st.selectedIds.contains b.id
      selectedIds := []
      targetSum := generateTarget (st.rng st.seed)
      seed := st.seed + 1
      timeLeft := TIME_LIMIT }

/-- Source: the match-check `useEffect` (lines 119-152).  On a match
(non-empty selection whose sum equals the target) apply `matchState`,
followed in classic mode by a row advancement.  On overshoot clear the
selection only.  Otherwise no change. -/
def checkSum (st : GameState) : GameState :=
  if 0 < st.selectedIds.length ∧ currentSum st = st.targetSum then
    if st.mode = GameMode.classic then addNewRow (matchState st) else matchState st
  else if st.targetSum < currentSum st then
    { st with selectedIds := [] }
  else st

/-- Source: the timer `useEffect` (lines 155-173).  Each 100ms tick runs
only in time mode while not game over and not paused; it checks the
CURRENT value first: if `timeLeft <= 0` it forces a row advancement and
returns `TIME_LIMIT`, otherwise it commits `timeLeft - 0.1`.  Here the
decrement is exact rational arithmetic, which suffices for the branch
structure of the tick; `tickTimerFP` below refines the decrement to the
source's binary64 arithmetic, where `10 - 0.1 - ... - 0.1` does not land
on 0. -/
def tickTimer (st : GameState) : GameState :=
  if st.mode = GameMode.time ∧ st.isGameOver = false ∧ st.isPaused = false then
    if st.timeLeft ≤ 0 then addNewRow { st with timeLeft := TIME_LIMIT }
    else { st with timeLeft := st.timeLeft - 1 / 10 }
  else st

/-- Source: the pause button, `setIsPaused`. -/
def setPaused (b : Bool) (st : GameState) : GameState := { st with isPaused := b }

/-- The in-session operations a player or the scheduler can trigger.  Each
state update re-runs the match-check effect, so `apply` composes every
mutation with `checkSum`; `setIsPaused` is not among the effect's
dependencies, so pausing does not re-run it. -/
inductive SessionOp where
  | click (id : ℕ)
  | tick
  | pause (b : Bool)

def applySessionOp : SessionOp → GameState → GameState
  | .click id, st => checkSum (handleBlockClick id st)
  | .tick, st => checkSum (tickTimer st)
  | .pause b, st => setPaused b st

/-- States reachable within a session: `startGame` from an arbitrary prior
state (followed by the match-check effect), then any sequence of session
operations. -/
inductive Reachable : GameState → Prop where
  | start (m : GameMode) (st0 : GameState) : Reachable (checkSum (startGame m st0))
  | step (o : SessionOp) {st : GameState} : Reachable st → Reachable (applySessionOp o st)

/-- No two blocks occupy the same (row, column) cell. -/
def cellsDistinct (bs : List Block) : Prop :=
  bs.Pairwise fun a b => a.row ≠ b.row ∨ a.col ≠ b.col

/-- A convenient concrete state for witnesses: score 0, running, unpaused,
full clock, a constant random stream and a fresh-id counter at 100. -/
def mkState (m : GameMode) (bs : List Block) (sel : List ℕ) (tgt : ℕ) : GameState :=
  { mode := m
    blocks := bs
    selectedIds := sel
    targetSum := tgt
    score := 0
    isGameOver := false
    timeLeft := TIME_LIMIT
    isPaused := false
    rng := fun _ => 0
    seed := 0
    nextId := 100 }

/-- C3: a row advancement from a board with a tile at row 0 sets game over,
keeps the pre-shift board unchanged, and appends no new row. -/
theorem advance_with_top_row_tile (st : GameState)
    (h : ∃ b ∈ st.blocks, b.row = 0) :
    (addNewRow st).isGameOver = true ∧ (addNewRow st).blocks = st.blocks ∧
    (addNewRow st).blocks.length = st.blocks.length := by
  obtain ⟨b, hb, hrow⟩ := h
  have hany : ((st.blocks.map fun b => { b with row := b.row - 1 }).any
      fun b => decide (b.row < 0)) = true := by
    rw [List.any_eq_true]
    refine ⟨_, List.mem_map_of_mem _ hb, ?_⟩
    simp [hrow]
  simp [addNewRow, hany]

theorem advance_with_top_row_tile_witness :
    (addNewRow (mkState GameMode.classic [⟨0, 5, 0, 0⟩] [] 10)).isGameOver = true ∧
    (addNewRow (mkState GameMode.classic [⟨0, 5, 0, 0⟩] [] 10)).blocks =
      (mkState GameMode.classic [⟨0, 5, 0, 0⟩] [] 10).blocks ∧
    (addNewRow (mkState GameMode.classic [⟨0, 5, 0, 0⟩] [] 10)).blocks.length =
      (mkState GameMode.classic [⟨0, 5, 0, 0⟩] [] 10).blocks.length :=
  advance_with_top_row_tile _ (by decide)

/-- C4: an overshoot (selected sum strictly above the target) clears the
selection and changes nothing else: score, board, target, mode and clock
are untouched. -/
theorem bust_clears_selection_only (st : GameState)
    (h : st.targetSum < currentSum st) :
    (checkSum st).selectedIds = [] ∧ (checkSum st).score = st.score ∧
    (checkSum st).blocks = st.blocks ∧ (checkSum st).targetSum = st.targetSum ∧
    (checkSum st).mode = st.mode ∧ (checkSum st).timeLeft = st.timeLeft := by
  have hne : ¬ (0 < st.selectedIds.length ∧ currentSum st = st.targetSum) := by
    rintro ⟨-, he⟩
    omega
  rw [checkSum, if_neg hne, if_pos h]
  exact ⟨rfl, rfl, rfl, rfl, rfl, rfl⟩

theorem bust_clears_selection_only_witness :
    (checkSum (mkState GameMode.classic [⟨0, 5, 9, 0⟩, ⟨1, 7, 9, 1⟩] [0, 1] 10)).selectedIds = [] ∧
    (checkSum (mkState GameMode.classic [⟨0, 5, 9, 0⟩, ⟨1, 7, 9, 1⟩] [0, 1] 10)).score =
      (mkState GameMode.classic [⟨0, 5, 9, 0⟩, ⟨1, 7, 9, 1⟩] [0, 1] 10).score ∧
    (checkSum (mkState GameMode.classic [⟨0, 5, 9, 0⟩, ⟨1, 7, 9, 1⟩] [0, 1] 10)).blocks =
      (mkState GameMode.classic [⟨0, 5, 9, 0⟩, ⟨1, 7, 9, 1⟩] [0, 1] 10).blocks ∧
    (checkSum (mkState GameMode.classic [⟨0, 5, 9, 0⟩, ⟨1, 7, 9, 1⟩] [0, 1] 10)).targetSum =
      (mkState GameMode.classic [⟨0, 5, 9, 0⟩, ⟨1, 7, 9, 1⟩] [0, 1] 10).targetSum ∧
    (checkSum (mkState GameMode.classic [⟨0, 5, 9, 0⟩, ⟨1, 7, 9, 1⟩] [0, 1] 10)).mode =
      (mkState GameMode.classic [⟨0, 5, 9, 0⟩, ⟨1, 7, 9, 1⟩] [0, 1] 10).mode ∧
    (checkSum (mkState GameMode.classic [⟨0, 5, 9, 0⟩, ⟨1, 7, 9, 1⟩] [0, 1] 10)).timeLeft =
      (mkState GameMode.classic [⟨0, 5, 9, 0⟩, ⟨1, 7, 9, 1⟩] [0, 1] 10).timeLeft :=
  bust_clears_selection_only _ (by decide)

/-- Row advancement never touches score, selection, target, clock or mode. -/
theorem addNewRow_preserves (st : GameState) :
    (addNewRow st).score = st.score ∧ (addNewRow st).selectedIds = st.selectedIds ∧
    (addNewRow st).targetSum = st.targetSum ∧ (addNewRow st).timeLeft = st.timeLeft ∧
    (addNewRow st).mode = st.mode := by
  unfold addNewRow
  split
  · exact ⟨rfl, rfl, rfl, rfl, rfl⟩
  · exact ⟨rfl, rfl, rfl, rfl, rfl⟩

/-- Every block after a row advancement either carries the id of a prior
block or is freshly generated with an id at or above the old counter. -/
theorem addNewRow_block_ids (st : GameState) :
    ∀ b ∈ (addNewRow st).blocks,
      (∃ b0 ∈ st.blocks, b.id = b0.id) ∨ st.nextId ≤ b.id := by
  intro b hb
  unfold addNewRow at hb
  split at hb
  · exact Or.inl ⟨b, hb, rfl⟩
  · simp only [newBottomRow, List.mem_append, List.mem_map, List.mem_range] at hb
    rcases hb with ⟨b0, hb0, rfl⟩ | ⟨c, -, rfl⟩
    · exact Or.inl ⟨b0, hb0, rfl⟩
    · exact Or.inr (Nat.le_add_right _ _)

/-- The fresh target draw always lands in the range 10..25. -/
theorem generateTarget_bounds (r : ℕ) :
    10 ≤ generateTarget r ∧ generateTarget r ≤ 25 := by
  unfold generateTarget
  omega

/-- C1: with a non-empty selection summing to the target, the match fires:
the score grows by `count * 10` plus the ceiling of the remaining time in
time mode only, every selected tile leaves the board, the selection
empties, a fresh target in 10..25 is drawn, the clock resets to
`TIME_LIMIT`, and in classic mode the same transition performs one row
advancement.  The freshness hypothesis says the selected ids are below the
fresh-id counter, which holds for every id ever put on the board. -/
theorem match_transition (st : GameState)
    (hsel : st.selectedIds ≠ [])
    (hsum : currentSum st = st.targetSum)
    (hfresh : ∀ i ∈ st.selectedIds, i < st.nextId) :
    (checkSum st).score = st.score + (st.selectedIds.length : ℤ) * 10 +
        (if st.mode = GameMode.time then ⌈st.timeLeft⌉ else 0) ∧
    (∀ b ∈ (checkSum st).blocks, b.id ∉ st.selectedIds) ∧
    (checkSum st).selectedIds = [] ∧
    10 ≤ (checkSum st).targetSum ∧ (checkSum st).targetSum ≤ 25 ∧
    (checkSum st).timeLeft = TIME_LIMIT ∧
    (st.mode = GameMode.classic → checkSum st = addNewRow (matchState st)) := by
  have hcond : 0 < st.selectedIds.length ∧ currentSum st = st.targetSum :=
    ⟨List.length_pos.mpr hsel, hsum⟩
  have hfilter : ∀ b ∈ (matchState st).blocks, b.id ∉ st.selectedIds := by
    intro b hb
    have := (List.mem_filter.mp hb).2
    simpa using this
  have htgt : (matchState st).targetSum = generateTarget (st.rng st.seed) := rfl
  rw [checkSum, if_pos hcond]
  by_cases hmode : st.mode = GameMode.classic
  · rw [if_pos hmode]
    obtain ⟨hs, hsl, ht, htl, -⟩ := addNewRow_preserves (matchState st)
    refine ⟨?_, ?_, ?_, ?_, ?_, ?_, fun _ => rfl⟩
    · rw [hs]; rfl
    · intro b hb
      rcases addNewRow_block_ids (matchState st) b hb with ⟨b0, hb0, hid⟩ | hge
      · rw [hid]; exact hfilter b0 hb0
      · intro hmem
        exact absurd hge (by have := hfresh b.id hmem; simp [matchState] at hge ⊢; omega)
    · rw [hsl]; rfl
    · rw [ht, htgt]; exact (generateTarget_bounds _).1
    · rw [ht, htgt]; exact (generateTarget_bounds _).2
    · rw [htl]; rfl
  · rw [if_neg hmode]
    refine ⟨rfl, hfilter, rfl, ?_, ?_, rfl, fun h => absurd h hmode⟩
    · rw [htgt]; exact (generateTarget_bounds _).1
    · rw [htgt]; exact (generateTarget_bounds _).2

def c1St : GameState := mkState GameMode.classic [⟨0, 5, 9, 0⟩, ⟨1, 7, 9, 1⟩] [0, 1] 12

theorem match_transition_witness :
    (checkSum c1St).score = c1St.score + (c1St.selectedIds.length : ℤ) * 10 +
        (if c1St.mode = GameMode.time then ⌈c1St.timeLeft⌉ else 0) ∧
    (checkSum c1St).selectedIds = [] ∧
    (checkSum c1St).timeLeft = TIME_LIMIT ∧
    (c1St.mode = GameMode.classic → checkSum c1St = addNewRow (matchState c1St)) :=
  have h := match_transition c1St (by decide) (by decide) (by decide)
  ⟨h.1, h.2.2.1, h.2.2.2.2.2.1, h.2.2.2.2.2.2⟩

/-- A time-mode state whose clock stands at 0.05 seconds, as in the spec's
low-clock scenario. -/
def lowClockSt : GameState :=
  { mkState GameMode.time [⟨0, 3, 9, 0⟩] [] 10 with timeLeft := 1 / 20 }

/-- C2 counterexample: a tick from `timeLeft = 0.05` does NOT force a row
advancement and does NOT reset the clock to `TIME_LIMIT`; it commits the
negative value `-0.05`, because the source checks `prev <= 0` BEFORE
subtracting rather than after. -/
theorem tick_at_low_clock_cex :
    (tickTimer lowClockSt).timeLeft = -(1 / 20) ∧
    (tickTimer lowClockSt).timeLeft ≠ TIME_LIMIT ∧
    (tickTimer lowClockSt).blocks = lowClockSt.blocks ∧
    (tickTimer lowClockSt).isGameOver = false := by
  refine ⟨?_, ?_, ?_, ?_⟩ <;>
    norm_num [tickTimer, lowClockSt, mkState, addNewRow, TIME_LIMIT]

/-- C2 amended: an active time-mode tick inspects the CURRENT clock first:
when it is already ≤ 0 the tick forces a row advancement and resets the
clock to `TIME_LIMIT`; when it is positive the tick only commits
`timeLeft - 0.1` (which may be negative), and the forced advancement
happens one tick later. -/
theorem tick_checks_before_decrement (st : GameState)
    (hm : st.mode = GameMode.time) (ho : st.isGameOver = false)
    (hp : st.isPaused = false) :
    (st.timeLeft ≤ 0 → tickTimer st = addNewRow { st with timeLeft := TIME_LIMIT }) ∧
    (0 < st.timeLeft →
      (tickTimer st).timeLeft = st.timeLeft - 1 / 10 ∧
      (tickTimer st).blocks = st.blocks ∧
      (tickTimer st).isGameOver = st.isGameOver) := by
  constructor
  · intro hle
    rw [tickTimer, if_pos ⟨hm, ho, hp⟩, if_pos hle]
  · intro hlt
    rw [tickTimer, if_pos ⟨hm, ho, hp⟩, if_neg (not_le.mpr hlt)]
    exact ⟨rfl, rfl, rfl⟩

/-- A time-mode state whose clock stands exactly at 0. -/
def zeroClockSt : GameState :=
  { mkState GameMode.time [⟨0, 3, 9, 0⟩] [] 10 with timeLeft := 0 }

theorem tick_checks_before_decrement_witness :
    tickTimer zeroClockSt = addNewRow { zeroClockSt with timeLeft := TIME_LIMIT } :=
  (tick_checks_before_decrement zeroClockSt rfl rfl rfl).1 le_rfl

/-- Characterisation of the initial board: exactly the blocks produced by
the flattened index `k`, one per cell of the bottom `INITIAL_ROWS` rows. -/
theorem mem_initBlocks (rng : ℕ → ℕ) (seed nid : ℕ) (b : Block) :
    b ∈ initBlocks rng seed nid ↔
      ∃ k, k < INITIAL_ROWS * GRID_COLS ∧
        b = { id := nid + k
              value := getRandomValue (rng (seed + k))
              row := ((GRID_ROWS - INITIAL_ROWS : ℕ) : ℤ) + (k / GRID_COLS : ℕ)
              col := k % GRID_COLS } := by
  rw [initBlocks, List.mem_map]
  constructor
  · rintro ⟨k, hk, rfl⟩
    exact ⟨k, List.mem_range.mp hk, rfl⟩
  · rintro ⟨k, hk, rfl⟩
    exact ⟨k, List.mem_range.mpr hk, rfl⟩

theorem initBlocks_length (rng : ℕ → ℕ) (seed nid : ℕ) :
    (initBlocks rng seed nid).length = INITIAL_ROWS * GRID_COLS := by
  rw [initBlocks, List.length_map, List.length_range]

theorem initBlocks_pairwise_ids (rng : ℕ → ℕ) (seed nid : ℕ) :
    (initBlocks rng seed nid).Pairwise fun a b => a.id ≠ b.id := by
  rw [initBlocks]
  refine List.Pairwise.map _ (fun a b hab => ?_) (List.pairwise_lt_range _)
  show nid + a ≠ nid + b
  omega

theorem initBlocks_cellsDistinct (rng : ℕ → ℕ) (seed nid : ℕ) :
    cellsDistinct (initBlocks rng seed nid) := by
  rw [cellsDistinct, initBlocks]
  refine List.Pairwise.map _ (fun a b hab => ?_) (List.pairwise_lt_range _)
  show ((GRID_ROWS - INITIAL_ROWS : ℕ) : ℤ) + (a / GRID_COLS : ℕ) ≠
      ((GRID_ROWS - INITIAL_ROWS : ℕ) : ℤ) + (b / GRID_COLS : ℕ) ∨
    a % GRID_COLS ≠ b % GRID_COLS
  simp only [GRID_COLS, GRID_ROWS, INITIAL_ROWS] at *
  by_contra hcon
  push_neg at hcon
  obtain ⟨h1, h2⟩ := hcon
  omega

/-- C5 amended: `startGame` resets score, selection, game-over flag, clock,
target and board exactly as claimed, but it does NOT touch the paused
flag, which keeps its prior value.  The new board has one block per cell
of the bottom four rows, values in 1..9 and fresh pairwise-distinct ids. -/
theorem startGame_resets_session (m : GameMode) (st : GameState) :
    (startGame m st).score = 0 ∧
    (startGame m st).selectedIds = [] ∧
    (startGame m st).isGameOver = false ∧
    (startGame m st).timeLeft = TIME_LIMIT ∧
    (startGame m st).isPaused = st.isPaused ∧
    10 ≤ (startGame m st).targetSum ∧ (startGame m st).targetSum ≤ 25 ∧
    (startGame m st).mode = m ∧
    (startGame m st).blocks.length = INITIAL_ROWS * GRID_COLS ∧
    (∀ b ∈ (startGame m st).blocks,
      1 ≤ b.value ∧ b.value ≤ 9 ∧
      ((GRID_ROWS - INITIAL_ROWS : ℕ) : ℤ) ≤ b.row ∧ b.row ≤ (GRID_ROWS : ℤ) - 1 ∧
      b.col < GRID_COLS ∧ st.nextId ≤ b.id) ∧
    (∀ r c : ℕ, GRID_ROWS - INITIAL_ROWS ≤ r → r < GRID_ROWS → c < GRID_COLS →
      ∃ b ∈ (startGame m st).blocks, b.row = (r : ℤ) ∧ b.col = c) ∧
    (startGame m st).blocks.Pairwise fun a b => a.id ≠ b.id := by
  refine ⟨rfl, rfl, rfl, rfl, rfl, (generateTarget_bounds _).1,
    (generateTarget_bounds _).2, rfl, initBlocks_length _ _ _, ?_, ?_, ?_⟩
  · intro b hb
    obtain ⟨k, hk, rfl⟩ := (mem_initBlocks _ _ _ b).mp hb
    simp only [getRandomValue, GRID_COLS, GRID_ROWS, INITIAL_ROWS] at *
    refine ⟨by omega, by omega, by push_cast; omega, by push_cast; omega,
      by omega, by omega⟩
  · intro r c hr1 hr2 hc
    simp only [GRID_COLS, GRID_ROWS, INITIAL_ROWS] at *
    refine ⟨_, (mem_initBlocks _ _ _ _).mpr ⟨(r - 6) * 6 + c,
      by show (r - 6) * 6 + c < 24; omega, rfl⟩, ?_, ?_⟩
    · show ((10 - 4 : ℕ) : ℤ) + (((r - 6) * 6 + c) / 6 : ℕ) = (r : ℤ)
      push_cast
      omega
    · show ((r - 6) * 6 + c) % 6 = c
      omega
  · exact initBlocks_pairwise_ids _ _ _

theorem startGame_resets_session_witness :
    (startGame GameMode.classic (mkState GameMode.time [] [] 10)).score = 0 ∧
    ∃ b ∈ (startGame GameMode.classic (mkState GameMode.time [] [] 10)).blocks,
      b.row = ((6 : ℕ) : ℤ) ∧ b.col = 0 :=
  have h := startGame_resets_session GameMode.classic (mkState GameMode.time [] [] 10)
  ⟨h.1, h.2.2.2.2.2.2.2.2.2.2.1 6 0 (by decide) (by decide) (by decide)⟩

/-- A prior state in which the game is paused. -/
def pausedSt : GameState :=
  { mkState GameMode.classic [] [] 10 with isPaused := true }

/-- C5 counterexample: starting a new game from a paused prior state (pause
the game, quit to the menu, start again) leaves the paused flag set, so
`startGame` does not produce `paused = false` for every prior state. -/
theorem startGame_retains_paused_cex :
    (startGame GameMode.classic pausedSt).isPaused = true := rfl

/-- A running state whose board holds a single block with id 1, so id 5 is
stale: it references no block on the board. -/
def staleIdSt : GameState := mkState GameMode.classic [⟨1, 3, 9, 0⟩] [] 10

/-- C6 counterexample: clicking an id that references no block on the board
is NOT a no-op — the stale id is appended to the selection, because
`handleBlockClick` never consults the board, and afterwards the selection
holds an id with no tile behind it. -/
theorem select_stale_id_cex :
    (∀ b ∈ staleIdSt.blocks, b.id ≠ 5) ∧
    staleIdSt.isGameOver = false ∧ staleIdSt.isPaused = false ∧
    staleIdSt.selectedIds = [] ∧
    (handleBlockClick 5 staleIdSt).selectedIds = [5] := by
  decide

/-- C6 amended: `selectTile` is a no-op when game over or paused; otherwise
it toggles the id's membership in the selection REGARDLESS of whether the
id references a block on the board (a stale id is simply added), leaving
board, score, target, game-over flag and clock untouched. -/
theorem selectTile_toggles (id : ℕ) (st : GameState) :
    (st.isGameOver = true ∨ st.isPaused = true → handleBlockClick id st = st) ∧
    (st.isGameOver = false → st.isPaused = false →
      ((id ∈ (handleBlockClick id st).selectedIds ↔ id ∉ st.selectedIds) ∧
       (∀ j, j ≠ id →
         (j ∈ (handleBlockClick id st).selectedIds ↔ j ∈ st.selectedIds)) ∧
       (handleBlockClick id st).blocks = st.blocks ∧
       (handleBlockClick id st).score = st.score ∧
       (handleBlockClick id st).targetSum = st.targetSum ∧
       (handleBlockClick id st).isGameOver = st.isGameOver ∧
       (handleBlockClick id st).timeLeft = st.timeLeft)) := by
  constructor
  · intro h
    rw [handleBlockClick]
    rcases h with h | h <;> simp [h]
  · intro ho hp
    rw [handleBlockClick]
    simp only [ho, hp, Bool.or_false, if_false]
    by_cases hmem : st.selectedIds.contains id
    · rw [if_pos hmem]
      have hid : id ∈ st.selectedIds := by simpa using hmem
      refine ⟨?_, ?_, rfl, rfl, rfl, rfl, rfl⟩
      · simp [List.mem_filter, hid]
      · intro j hj
        simp [List.mem_filter, hj]
    · rw [if_neg hmem]
      have hid : id ∉ st.selectedIds := by simpa using hmem
      refine ⟨?_, ?_, rfl, rfl, rfl, rfl, rfl⟩
      · simp [hid]
      · intro j hj
        simp [hj]

theorem selectTile_toggles_witness :
    7 ∈ (handleBlockClick 7 (mkState GameMode.classic [] [] 10)).selectedIds ↔
      7 ∉ (mkState GameMode.classic [] [] 10).selectedIds :=
  ((selectTile_toggles 7 (mkState GameMode.classic [] [] 10)).2 rfl rfl).1

/-- The session invariant: the clock always stands at `10 - k/10` for some
tick count k ≤ 100 (the source only ever writes `TIME_LIMIT` or subtracts
0.1 from a value it has just checked to be positive), the score is
non-negative, every block sits at or above the bottom row, and no two
blocks share a cell. -/
structure Inv (st : GameState) : Prop where
  clock : ∃ k : ℕ, k ≤ 100 ∧ st.timeLeft = 10 - (k : ℚ) / 10
  score_nonneg : 0 ≤ st.score
  rows_le : ∀ b ∈ st.blocks, b.row ≤ (GRID_ROWS : ℤ) - 1
  cells : cellsDistinct st.blocks

theorem Inv.clock_nonneg {st : GameState} (h : Inv st) : 0 ≤ st.timeLeft := by
  obtain ⟨k, hk, he⟩ := h.clock
  rw [he]
  have : (k : ℚ) ≤ 100 := by exact_mod_cast hk
  linarith

theorem Inv.clock_le {st : GameState} (h : Inv st) : st.timeLeft ≤ 10 := by
  obtain ⟨k, hk, he⟩ := h.clock
  rw [he]
  have : (0 : ℚ) ≤ (k : ℚ) := Nat.cast_nonneg k
  linarith

theorem Inv_addNewRow {st : GameState} (h : Inv st) : Inv (addNewRow st) := by
  unfold addNewRow
  split
  · exact ⟨h.clock, h.score_nonneg, h.rows_le, h.cells⟩
  · refine ⟨h.clock, h.score_nonneg, ?_, ?_⟩
    · intro b hb
      simp only [newBottomRow, List.mem_append, List.mem_map, List.mem_range] at hb
      rcases hb with ⟨b0, hb0, rfl⟩ | ⟨c, -, rfl⟩
      · have := h.rows_le b0 hb0
        simp only [GRID_ROWS] at *
        omega
      · exact le_refl _
    · rw [cellsDistinct, List.pairwise_append]
      refine ⟨?_, ?_, ?_⟩
      · refine List.Pairwise.map _ (fun a b hab => ?_) h.cells
        rcases hab with hr | hc
        · exact Or.inl (by simpa using fun he => hr (by omega))
        · exact Or.inr hc
      · rw [newBottomRow]
        refine List.Pairwise.map _ (fun a b hab => Or.inr ?_) (List.pairwise_lt_range _)
        show a ≠ b
        omega
      · intro a ha b hb
        simp only [List.mem_map] at ha
        obtain ⟨a0, ha0, rfl⟩ := ha
        simp only [newBottomRow, List.mem_map, List.mem_range] at hb
        obtain ⟨c, -, rfl⟩ := hb
        refine Or.inl ?_
        have := h.rows_le a0 ha0
        show a0.row - 1 ≠ (GRID_ROWS : ℤ) - 1
        simp only [GRID_ROWS] at *
        omega

theorem Inv_matchState {st : GameState} (h : Inv st) : Inv (matchState st) := by
  refine ⟨⟨0, by omega, by norm_num [matchState, TIME_LIMIT]⟩, ?_, ?_, ?_⟩
  · show (0 : ℤ) ≤ st.score + (st.selectedIds.length : ℤ) * 10 +
      (if st.mode = GameMode.time then ⌈st.timeLeft⌉ else 0)
    have h1 := h.score_nonneg
    have h2 : (0 : ℤ) ≤ if st.mode = GameMode.time then ⌈st.timeLeft⌉ else 0 := by
      split
      · exact Int.ceil_nonneg h.clock_nonneg
      · exact le_refl 0
    positivity
  · intro b hb
    exact h.rows_le b (List.mem_filter.mp hb).1
  · exact h.cells.sublist (List.filter_sublist _)

theorem Inv_checkSum {st : GameState} (h : Inv st) : Inv (checkSum st) := by
  rw [checkSum]
  split
  · split
    · exact Inv_addNewRow (Inv_matchState h)
    · exact Inv_matchState h
  · split
    · exact ⟨h.clock, h.score_nonneg, h.rows_le, h.cells⟩
    · exact h

theorem Inv_handleBlockClick (id : ℕ) {st : GameState} (h : Inv st) :
    Inv (handleBlockClick id st) := by
  unfold handleBlockClick
  split
  · exact h
  · split
    · exact ⟨h.clock, h.score_nonneg, h.rows_le, h.cells⟩
    · exact ⟨h.clock, h.score_nonneg, h.rows_le, h.cells⟩

theorem Inv_tickTimer {st : GameState} (h : Inv st) : Inv (tickTimer st) := by
  rw [tickTimer]
  split
  · split
    · refine Inv_addNewRow ⟨⟨0, by omega, by norm_num [TIME_LIMIT]⟩,
        h.score_nonneg, h.rows_le, h.cells⟩
    · rename_i hpos
      obtain ⟨k, hk, he⟩ := h.clock
      have hlt : 0 < st.timeLeft := lt_of_not_le hpos
      have hk99 : k ≤ 99 := by
        by_contra hcon
        have hk100 : k = 100 := by omega
        rw [he, hk100] at hlt
        norm_num at hlt
      refine ⟨⟨k + 1, by omega, ?_⟩, h.score_nonneg, h.rows_le, h.cells⟩
      show st.timeLeft - 1 / 10 = 10 - ((k + 1 : ℕ) : ℚ) / 10
      rw [he]
      push_cast
      ring
  · exact h

theorem Inv_startGame (m : GameMode) (st : GameState) : Inv (startGame m st) := by
  refine ⟨⟨0, by omega, by norm_num [startGame, TIME_LIMIT]⟩, le_refl 0, ?_, ?_⟩
  · intro b hb
    obtain ⟨k, hk, rfl⟩ := (mem_initBlocks _ _ _ b).mp hb
    show ((GRID_ROWS - INITIAL_ROWS : ℕ) : ℤ) + (k / GRID_COLS : ℕ) ≤ (GRID_ROWS : ℤ) - 1
    simp only [GRID_ROWS, GRID_COLS, INITIAL_ROWS] at *
    push_cast
    omega
  · exact initBlocks_cellsDistinct _ _ _

theorem Inv_applySessionOp (o : SessionOp) {st : GameState} (h : Inv st) :
    Inv (applySessionOp o st) := by
  cases o with
  | click id => exact Inv_checkSum (Inv_handleBlockClick id h)
  | tick => exact Inv_checkSum (Inv_tickTimer h)
  | pause b => exact ⟨h.clock, h.score_nonneg, h.rows_le, h.cells⟩

theorem Inv_reachable {st : GameState} (h : Reachable st) : Inv st := by
  induction h with
  | start m st0 => exact Inv_checkSum (Inv_startGame m st0)
  | step o _ ih => exact Inv_applySessionOp o ih

/-- Idealized-clock bound: with the tick decrement taken as exact rational
arithmetic (`tickTimer`), every reachable clock value is `10 - k/10` with
`k ≤ 100`, so the clock stays in `[0, TIME_LIMIT]`.  This bound is an
artifact of the exact arithmetic: under the source's binary64 decrement
the lower bound fails — see `clock_negative_after_101_ticks` and
`timeLeft_range_fp` below. -/
theorem timeLeft_in_range {st : GameState} (h : Reachable st) :
    0 ≤ st.timeLeft ∧ st.timeLeft ≤ TIME_LIMIT :=
  ⟨(Inv_reachable h).clock_nonneg, (Inv_reachable h).clock_le⟩

theorem timeLeft_in_range_witness :
    0 ≤ (checkSum (startGame GameMode.time (mkState GameMode.time [] [] 10))).timeLeft ∧
    (checkSum (startGame GameMode.time (mkState GameMode.time [] [] 10))).timeLeft ≤
      TIME_LIMIT :=
  timeLeft_in_range (Reachable.start GameMode.time (mkState GameMode.time [] [] 10))

/-- C8: in every reachable session state no two blocks on the board occupy
the same (row, column) cell. -/
theorem board_cells_distinct {st : GameState} (h : Reachable st) :
    cellsDistinct st.blocks :=
  (Inv_reachable h).cells

theorem board_cells_distinct_witness :
    cellsDistinct (checkSum (startGame GameMode.classic
      (mkState GameMode.classic [] [] 10))).blocks :=
  board_cells_distinct (Reachable.start GameMode.classic
    (mkState GameMode.classic [] [] 10))

theorem handleBlockClick_score (id : ℕ) (st : GameState) :
    (handleBlockClick id st).score = st.score := by
  unfold handleBlockClick
  split
  · rfl
  · split <;> rfl

theorem tickTimer_score (st : GameState) : (tickTimer st).score = st.score := by
  rw [tickTimer]
  split
  · split
    · exact (addNewRow_preserves _).1
    · rfl
  · rfl

/-- The match-check effect can only leave the score alone or raise it; in
the match branch the bonus is the ceiling of a clock the invariant keeps
non-negative. -/
theorem score_le_checkSum {st : GameState} (h : Inv st) :
    st.score ≤ (checkSum st).score := by
  rw [checkSum]
  have hb : (0 : ℤ) ≤ if st.mode = GameMode.time then ⌈st.timeLeft⌉ else 0 := by
    split
    · exact Int.ceil_nonneg h.clock_nonneg
    · exact le_refl 0
  have hm : st.score ≤ (matchState st).score := by
    show st.score ≤ st.score + (st.selectedIds.length : ℤ) * 10 +
      (if st.mode = GameMode.time then ⌈st.timeLeft⌉ else 0)
    have h10 : (0 : ℤ) ≤ (st.selectedIds.length : ℤ) * 10 := by positivity
    linarith
  split
  · split
    · rw [(addNewRow_preserves (matchState st)).1]
      exact hm
    · exact hm
  · split
    · exact le_refl _
    · exact le_refl _

theorem score_step_mono (o : SessionOp) {st : GameState} (h : Inv st) :
    st.score ≤ (applySessionOp o st).score := by
  cases o with
  | click id =>
    have h1 := score_le_checkSum (Inv_handleBlockClick id h)
    rw [handleBlockClick_score] at h1
    exact h1
  | tick =>
    have h1 := score_le_checkSum (Inv_tickTimer h)
    rw [tickTimer_score] at h1
    exact h1
  | pause b => exact le_refl _

theorem score_foldl_mono (ops : List SessionOp) :
    ∀ st : GameState, Inv st →
      st.score ≤ (ops.foldl (fun s o => applySessionOp o s) st).score := by
  induction ops with
  | nil =>
    intro st _
    exact le_refl _
  | cons o rest ih =>
    intro st h
    calc st.score ≤ (applySessionOp o st).score := score_step_mono o h
      _ ≤ _ := ih _ (Inv_applySessionOp o h)

/-- C9: within a session the score is a non-negative integer and no
sequence of in-session operations ever lowers it. -/
theorem score_monotone {st : GameState} (h : Reachable st) (ops : List SessionOp) :
    0 ≤ st.score ∧
    st.score ≤ (ops.foldl (fun s o => applySessionOp o s) st).score :=
  ⟨(Inv_reachable h).score_nonneg, score_foldl_mono ops st (Inv_reachable h)⟩

theorem score_monotone_witness :
    0 ≤ (checkSum (startGame GameMode.time (mkState GameMode.classic [] [] 10))).score ∧
    (checkSum (startGame GameMode.time (mkState GameMode.classic [] [] 10))).score ≤
      (([SessionOp.tick].foldl (fun s o => applySessionOp o s)
        (checkSum (startGame GameMode.time (mkState GameMode.classic [] [] 10))))).score :=
  score_monotone (Reachable.start GameMode.time (mkState GameMode.classic [] [] 10))
    [SessionOp.tick]

/-- C10: in classic mode, when the row advancement caused by a match hits a
tile left at row 0 after the removal, the match's effects are still
committed before game over is flagged: score bump, removal of the selected
tiles, cleared selection, fresh target and clock reset all take effect, and
the retained final board is the post-removal, pre-shift board. -/
theorem classic_match_game_over (st : GameState)
    (hmode : st.mode = GameMode.classic)
    (hsel : st.selectedIds ≠ [])
    (hsum : currentSum st = st.targetSum)
    (htop : ∃ b ∈ st.blocks, st.selectedIds.contains b.id = false ∧ b.row = 0) :
    (checkSum st).isGameOver = true ∧
    (checkSum st).score = st.score + (st.selectedIds.length : ℤ) * 10 ∧
    (checkSum st).selectedIds = [] ∧
    (checkSum st).targetSum = generateTarget (st.rng st.seed) ∧
    (checkSum st).timeLeft = TIME_LIMIT ∧
    (checkSum st).blocks = st.blocks.filter fun b => !st.selectedIds.contains b.id := by
  have hcond : 0 < st.selectedIds.length ∧ currentSum st = st.targetSum :=
    ⟨List.length_pos.mpr hsel, hsum⟩
  rw [checkSum, if_pos hcond, if_pos hmode]
  have hany : (((matchState st).blocks.map fun b => { b with row := b.row - 1 }).any
      fun b => decide (b.row < 0)) = true := by
    obtain ⟨b, hb, hnotsel, hrow⟩ := htop
    rw [List.any_eq_true]
    refine ⟨_, List.mem_map_of_mem _ (List.mem_filter.mpr ⟨hb, by rw [hnotsel]; rfl⟩),
      by simp [hrow]⟩
  unfold addNewRow
  rw [if_pos hany]
  refine ⟨rfl, ?_, rfl, rfl, rfl, rfl⟩
  show (matchState st).score = st.score + (st.selectedIds.length : ℤ) * 10
  simp [matchState, hmode]

def c10St : GameState := mkState GameMode.classic [⟨0, 5, 0, 0⟩, ⟨1, 7, 9, 0⟩] [1] 7

theorem classic_match_game_over_witness :
    (checkSum c10St).isGameOver = true ∧
    (checkSum c10St).score = c10St.score + (c10St.selectedIds.length : ℤ) * 10 ∧
    (checkSum c10St).selectedIds = [] ∧
    (checkSum c10St).targetSum = generateTarget (c10St.rng c10St.seed) ∧
    (checkSum c10St).timeLeft = TIME_LIMIT ∧
    (checkSum c10St).blocks = c10St.blocks.filter fun b => !c10St.selectedIds.contains b.id :=
  classic_match_game_over c10St rfl (by decide) (by decide) (by decide)

/-- Round a rational to an integer: nearest, ties to even, as IEEE 754
round-to-nearest resolves a value exactly between two grid points. -/
def roundTiesEven (x : ℚ) : ℤ :=
  if x - ⌊x⌋ < 1 / 2 then ⌊x⌋
  else if 1 / 2 < x - ⌊x⌋ then ⌊x⌋ + 1
  else if 2 ∣ ⌊x⌋ then ⌊x⌋ else ⌊x⌋ + 1

/-- Round a rational to the nearest binary64 value (round-to-nearest, ties
to even): scale by the unit in the last place `2 ^ (e - 52)`, where
`e = Int.log 2 |q|` is the binade exponent, round to an integer mantissa
and scale back.  This covers the normal range of binary64 (no subnormals,
overflow or NaN), which is ample for clock values between -1 and 10. -/
def roundNearest (q : ℚ) : ℚ :=
  if q = 0 then 0
  else (roundTiesEven (q / (2 : ℚ) ^ (Int.log 2 |q| - 52)) : ℤ) *
    (2 : ℚ) ^ (Int.log 2 |q| - 52)

/-- The exact value of the binary64 literal `0.1` in the source:
`0x3FB999999999999A`, i.e. `3602879701896397 * 2 ^ (-55)`. -/
def dTenth : ℚ := 3602879701896397 / 36028797018963968

/-- binary64 subtraction: subtract exactly, then round the result to the
nearest representable value.  This is the JavaScript `prev - 0.1`. -/
def fpSub (a b : ℚ) : ℚ := roundNearest (a - b)

/-- The timer tick of lines 155-173 with the decrement performed in
binary64, as the JavaScript engine executes `prev - 0.1`: same branch
structure as `tickTimer`, but the committed value is the rounded
difference `fpSub prev 0.1`. -/
def tickTimerFP (st : GameState) : GameState :=
  if st.mode = GameMode.time ∧ st.isGameOver = false ∧ st.isPaused = false then
    if st.timeLeft ≤ 0 then addNewRow { st with timeLeft := TIME_LIMIT }
    else { st with timeLeft := fpSub st.timeLeft dTenth }
  else st

/-- Session reachability with the binary64 timer tick. -/
inductive ReachableFP : GameState → Prop where
  | start (m : GameMode) (st0 : GameState) : ReachableFP (checkSum (startGame m st0))
  | click (id : ℕ) {st : GameState} :
      ReachableFP st → ReachableFP (checkSum (handleBlockClick id st))
  | tick {st : GameState} : ReachableFP st → ReachableFP (checkSum (tickTimerFP st))
  | pause (b : Bool) {st : GameState} : ReachableFP st → ReachableFP (setPaused b st)

theorem roundTiesEven_eq_of (x : ℚ) (r : ℤ)
    (h1 : (r : ℚ) - 1 / 2 < x) (h2 : x < (r : ℚ) + 1 / 2) :
    roundTiesEven x = r := by
  rcases le_or_lt (r : ℚ) x with h | h
  · have hfl : ⌊x⌋ = r := Int.floor_eq_iff.mpr ⟨h, by linarith⟩
    rw [roundTiesEven, hfl, if_pos (by linarith)]
  · have hfl : ⌊x⌋ = r - 1 := Int.floor_eq_iff.mpr ⟨by push_cast; linarith, by push_cast; linarith⟩
    rw [roundTiesEven, hfl, if_neg (by push_cast; linarith), if_pos (by push_cast; linarith)]
    omega

theorem roundTiesEven_eq_tie (x : ℚ) (n : ℤ) (hx : x = (n : ℚ) + 1 / 2) (he : 2 ∣ n) :
    roundTiesEven x = n := by
  have hfl : ⌊x⌋ = n := Int.floor_eq_iff.mpr ⟨by rw [hx]; linarith, by rw [hx]; linarith⟩
  rw [roundTiesEven, hfl, if_neg (by rw [hx]; linarith),
    if_neg (by rw [hx]; linarith), if_pos he]

theorem roundTiesEven_eq_tie_up (x : ℚ) (n : ℤ) (hx : x = (n : ℚ) + 1 / 2) (ho : ¬ 2 ∣ n) :
    roundTiesEven x = n + 1 := by
  have hfl : ⌊x⌋ = n := Int.floor_eq_iff.mpr ⟨by rw [hx]; linarith, by rw [hx]; linarith⟩
  rw [roundTiesEven, hfl, if_neg (by rw [hx]; linarith),
    if_neg (by rw [hx]; linarith), if_neg ho]

/-- Rounding to an integer moves a value by at most one half. -/
theorem roundTiesEven_err (x : ℚ) : |(roundTiesEven x : ℚ) - x| ≤ 1 / 2 := by
  have h1 : (⌊x⌋ : ℚ) ≤ x := Int.floor_le x
  have h2 : x < ⌊x⌋ + 1 := Int.lt_floor_add_one x
  rw [roundTiesEven]
  split
  · rename_i h
    rw [abs_le]
    constructor <;> linarith
  · split
    · rename_i h h3
      rw [abs_le]
      constructor <;> push_cast <;> linarith
    · rename_i h h3
      split <;> · rw [abs_le]; constructor <;> push_cast <;> linarith

theorem log2_eq_of_bounds (x : ℚ) (e : ℤ) (hx : 0 < x)
    (h1 : (2 : ℚ) ^ e ≤ x) (h2 : x < (2 : ℚ) ^ (e + 1)) :
    Int.log 2 x = e := by
  have hcast : ((2 : ℕ) : ℚ) = (2 : ℚ) := by norm_num
  have hle : e ≤ Int.log 2 x :=
    (Int.zpow_le_iff_le_log (by norm_num) hx).mp (by rw [hcast]; exact h1)
  have hlt : Int.log 2 x < e + 1 :=
    (Int.lt_zpow_iff_log_lt (by norm_num) hx).mp (by rw [hcast]; exact h2)
  omega

/-- Evaluation rule for `roundNearest`, driven by explicit binade bounds
and an explicit rounded mantissa. -/
theorem roundNearest_eq (q v : ℚ) (e r : ℤ) (hq : 0 < |q|)
    (h1 : (2 : ℚ) ^ e ≤ |q|) (h2 : |q| < (2 : ℚ) ^ (e + 1))
    (hr : roundTiesEven (q / (2 : ℚ) ^ (e - 52)) = r)
    (hv : (r : ℚ) * (2 : ℚ) ^ (e - 52) = v) :
    roundNearest q = v := by
  have hq0 : q ≠ 0 := by
    intro h
    rw [h] at hq
    simp at hq
  have hlog : Int.log 2 |q| = e := log2_eq_of_bounds _ e hq h1 h2
  rw [roundNearest, if_neg hq0, hlog, hr, hv]

theorem fpSub_eq_pos (t v : ℚ) (e r : ℤ)
    (h0 : 0 < t - dTenth)
    (h1 : (2 : ℚ) ^ e ≤ t - dTenth) (h2 : t - dTenth < (2 : ℚ) ^ (e + 1))
    (hr : roundTiesEven ((t - dTenth) / (2 : ℚ) ^ (e - 52)) = r)
    (hv : (r : ℚ) * (2 : ℚ) ^ (e - 52) = v) :
    fpSub t dTenth = v := by
  have habs : |t - dTenth| = t - dTenth := abs_of_pos h0
  exact roundNearest_eq _ v e r (by rw [habs]; exact h0) (by rw [habs]; exact h1)
    (by rw [habs]; exact h2) hr hv

theorem fpSub_eq_neg (t v : ℚ) (e r : ℤ)
    (h0 : t - dTenth < 0)
    (h1 : (2 : ℚ) ^ e ≤ -(t - dTenth)) (h2 : -(t - dTenth) < (2 : ℚ) ^ (e + 1))
    (hr : roundTiesEven ((t - dTenth) / (2 : ℚ) ^ (e - 52)) = r)
    (hv : (r : ℚ) * (2 : ℚ) ^ (e - 52) = v) :
    fpSub t dTenth = v := by
  have habs : |t - dTenth| = -(t - dTenth) := abs_of_neg h0
  exact roundNearest_eq _ v e r (by rw [habs]; linarith) (by rw [habs]; exact h1)
    (by rw [habs]; exact h2) hr hv

/-- With an empty selection the match-check effect is the identity: the
match branch needs a non-empty selection and the overshoot branch needs a
positive selected sum. -/
theorem currentSum_empty (st : GameState) (h : st.selectedIds = []) :
    currentSum st = 0 := by
  rw [currentSum, h]
  simp

theorem checkSum_empty (st : GameState) (h : st.selectedIds = []) : checkSum st = st := by
  have h1 : ¬ (0 < st.selectedIds.length ∧ currentSum st = st.targetSum) := by
    rw [h]
    simp
  have h2 : ¬ (st.targetSum < currentSum st) := by
    rw [currentSum_empty st h]
    omega
  rw [checkSum, if_neg h1, if_neg h2]

/-- The match-check effect either leaves the clock alone or resets it. -/
theorem checkSum_timeLeft (st : GameState) :
    (checkSum st).timeLeft = st.timeLeft ∨ (checkSum st).timeLeft = TIME_LIMIT := by
  rw [checkSum]
  split
  · split
    · right
      rw [(addNewRow_preserves _).2.2.2.1]
      rfl
    · right
      rfl
  · split
    · left
      rfl
    · left
      rfl

theorem handleBlockClick_timeLeft (id : ℕ) (st : GameState) :
    (handleBlockClick id st).timeLeft = st.timeLeft := by
  unfold handleBlockClick
  split
  · rfl
  · split <;> rfl

/-- binary64 rounding moves a value by at most one relative unit in the
last place: half an ulp, and the ulp is at most `|q| / 2 ^ 52`. -/
theorem roundNearest_error (q : ℚ) : |roundNearest q - q| ≤ |q| / 2 ^ (52 : ℕ) := by
  rcases eq_or_ne q 0 with rfl | hq
  · simp [roundNearest]
  · rw [roundNearest, if_neg hq]
    have hq' : (0 : ℚ) < |q| := abs_pos.mpr hq
    have hupos : (0 : ℚ) < (2 : ℚ) ^ (Int.log 2 |q| - 52) := zpow_pos (by norm_num) _
    have key := roundTiesEven_err (q / (2 : ℚ) ^ (Int.log 2 |q| - 52))
    have hfac : (roundTiesEven (q / (2 : ℚ) ^ (Int.log 2 |q| - 52)) : ℚ) *
        (2 : ℚ) ^ (Int.log 2 |q| - 52) - q
        = ((roundTiesEven (q / (2 : ℚ) ^ (Int.log 2 |q| - 52)) : ℚ) -
            q / (2 : ℚ) ^ (Int.log 2 |q| - 52)) * (2 : ℚ) ^ (Int.log 2 |q| - 52) := by
      field_simp
    rw [hfac, abs_mul, abs_of_pos hupos]
    have hlow : (2 : ℚ) ^ Int.log 2 |q| ≤ |q| := by
      have h := Int.zpow_log_le_self (b := 2) (by norm_num) hq'
      have hcast : ((2 : ℕ) : ℚ) = (2 : ℚ) := by norm_num
      rw [hcast] at h
      exact h
    have hsplit : (2 : ℚ) ^ (Int.log 2 |q| - 52) = (2 : ℚ) ^ Int.log 2 |q| / 2 ^ (52 : ℕ) := by
      rw [zpow_sub₀ (by norm_num : (2 : ℚ) ≠ 0)]
      norm_num
    have hp52 : (0 : ℚ) < 2 ^ (52 : ℕ) := by positivity
    calc |(roundTiesEven (q / (2 : ℚ) ^ (Int.log 2 |q| - 52)) : ℚ) -
            q / (2 : ℚ) ^ (Int.log 2 |q| - 52)| * (2 : ℚ) ^ (Int.log 2 |q| - 52)
        ≤ (1 / 2) * (2 : ℚ) ^ (Int.log 2 |q| - 52) :=
          mul_le_mul_of_nonneg_right key (le_of_lt hupos)
      _ ≤ (2 : ℚ) ^ Int.log 2 |q| / 2 ^ (52 : ℕ) := by
          rw [hsplit]
          have hx : (0 : ℚ) ≤ (2 : ℚ) ^ Int.log 2 |q| / 2 ^ (52 : ℕ) := by positivity
          linarith
      _ ≤ |q| / 2 ^ (52 : ℕ) := by gcongr

/-- One binary64 tick from a positive clock at most 10: the committed value
stays within `(-1/8, 10]`. -/
theorem fpSub_tenth_bounds (t : ℚ) (h0 : 0 < t) (h10 : t ≤ 10) :
    -(1 / 8) ≤ fpSub t dTenth ∧ fpSub t dTenth ≤ 10 := by
  have herr := roundNearest_error (t - dTenth)
  have hd1 : (9 : ℚ) / 100 < dTenth := by norm_num [dTenth]
  have hd2 : dTenth < (11 : ℚ) / 100 := by norm_num [dTenth]
  have habs : |t - dTenth| ≤ 10 := by
    rw [abs_le]
    constructor <;> linarith
  have hp : ((2 : ℚ) ^ (52 : ℕ)) = 4503599627370496 := by norm_num
  rw [hp] at herr
  rw [abs_le] at herr
  have hsmall : |t - dTenth| / 4503599627370496 ≤ 10 / 4503599627370496 := by
    have := habs
    linarith
  constructor
  · show -(1 / 8) ≤ roundNearest (t - dTenth)
    have := herr.1
    linarith
  · show roundNearest (t - dTenth) ≤ 10
    have := herr.2
    linarith

/-- C7 amended: with the source's binary64 tick decrement, the clock never
exceeds `TIME_LIMIT`, and its transient undershoot below 0 is bounded by
one rounded tick: it always stays at or above `-1/8`.  A negative clock
value lasts at most one tick, since the next active tick sees
`timeLeft <= 0` and resets to `TIME_LIMIT`. -/
theorem timeLeft_range_fp {st : GameState} (h : ReachableFP st) :
    -(1 / 8) ≤ st.timeLeft ∧ st.timeLeft ≤ TIME_LIMIT := by
  induction h with
  | start m st0 =>
    rcases checkSum_timeLeft (startGame m st0) with he | he <;> rw [he]
    · constructor
      · show -(1 / 8) ≤ TIME_LIMIT
        norm_num [TIME_LIMIT]
      · show TIME_LIMIT ≤ TIME_LIMIT
        exact le_refl _
    · norm_num [TIME_LIMIT]
  | click id _ ih =>
    rcases checkSum_timeLeft (handleBlockClick ..) with he | he <;> rw [he]
    · rw [handleBlockClick_timeLeft]
      exact ih
    · norm_num [TIME_LIMIT]
  | tick _ ih =>
    rename_i st' _
    rcases checkSum_timeLeft (tickTimerFP st') with he | he <;> rw [he]
    · rw [tickTimerFP]
      split
      · split
        · rw [(addNewRow_preserves _).2.2.2.1]
          constructor
          · show -(1 / 8) ≤ TIME_LIMIT
            norm_num [TIME_LIMIT]
          · show TIME_LIMIT ≤ TIME_LIMIT
            exact le_refl _
        · rename_i hpos
          have hb := fpSub_tenth_bounds st'.timeLeft (lt_of_not_le hpos) ih.2
          exact ⟨hb.1, hb.2⟩
      · exact ih
    · norm_num [TIME_LIMIT]
  | pause b _ ih => exact ih

theorem timeLeft_range_fp_witness :
    -(1 / 8) ≤ (checkSum (startGame GameMode.time (mkState GameMode.time [] [] 10))).timeLeft ∧
    (checkSum (startGame GameMode.time (mkState GameMode.time [] [] 10))).timeLeft ≤
      TIME_LIMIT :=
  timeLeft_range_fp (ReachableFP.start GameMode.time (mkState GameMode.time [] [] 10))

/-- A fresh time-mode session under the binary64 timer. -/
def fpStart : GameState := checkSum (startGame GameMode.time (mkState GameMode.time [] [] 10))

/-- One scheduler tick under the binary64 timer, followed by the
match-check effect. -/
def fpTick (st : GameState) : GameState := checkSum (tickTimerFP st)

/-- The session state after `n` uninterrupted scheduler ticks. -/
def fpTrace : ℕ → GameState
  | 0 => fpStart
  | n + 1 => fpTick (fpTrace n)

theorem fpTick_pos_eq (st : GameState) (t0 t1 : ℚ)
    (hm : st.mode = GameMode.time) (ho : st.isGameOver = false)
    (hp : st.isPaused = false) (hsel : st.selectedIds = [])
    (htv : st.timeLeft = t0) (ht : 0 < t0) (hsub : fpSub t0 dTenth = t1) :
    fpTick st = { st with timeLeft := t1 } := by
  rw [fpTick, tickTimerFP, htv, if_pos ⟨hm, ho, hp⟩, if_neg (not_le.mpr ht), hsub]
  exact checkSum_empty _ hsel

theorem fpTrace_reachable (n : ℕ) : ReachableFP (fpTrace n) := by
  induction n with
  | zero => exact ReachableFP.start GameMode.time (mkState GameMode.time [] [] 10)
  | succ k ih => exact ReachableFP.tick ih

set_option maxHeartbeats 2000000 in
/-- C7 counterexample: the source's clock is an IEEE binary64 value, and
one hundred binary64 decrements of 0.1 from 10.0 do not land on 0: they
leave the positive residue `677 * 2 ^ (-55)` (about 1.9e-14), so the reset
branch does not fire, and the 101st tick commits a negative clock value
(about -0.0999999999999812).  The resulting state is reachable, and its
time-remaining lies outside `[0, TIME_LIMIT]`. -/
theorem clock_negative_after_101_ticks :
    ReachableFP (fpTrace 101) ∧ (fpTrace 101).timeLeft < 0 ∧
    0 < (fpTrace 100).timeLeft := by
  have step : ∀ n : ℕ, fpTrace (n + 1) = fpTick (fpTrace n) := fun n => rfl
  have s0 : fpTrace 0 = { fpStart with timeLeft := (10 : ℚ) } := rfl
  have s1 : fpTrace 1 = { fpStart with timeLeft := (5573204538870989 : ℚ) / 562949953421312 } := by
    rw [(by norm_num : (1 : ℕ) = 0 + 1), step, s0]
    exact fpTick_pos_eq _ ((10 : ℚ)) ((5573204538870989 : ℚ) / 562949953421312) rfl rfl rfl rfl rfl (by norm_num)
      (fpSub_eq_pos _ _ (3) (5573204538870989) (by norm_num [dTenth]) (by norm_num [dTenth])
        (by norm_num [dTenth]) (roundTiesEven_eq_of _ (5573204538870989) (by norm_num [dTenth]) (by norm_num [dTenth]))
        (by norm_num))
  have s2 : fpTrace 2 = { fpStart with timeLeft := (2758454771764429 : ℚ) / 281474976710656 } := by
    rw [(by norm_num : (2 : ℕ) = 1 + 1), step, s1]
    exact fpTick_pos_eq _ ((5573204538870989 : ℚ) / 562949953421312) ((2758454771764429 : ℚ) / 281474976710656) rfl rfl rfl rfl rfl (by norm_num)
      (fpSub_eq_pos _ _ (3) (5516909543528858) (by norm_num [dTenth]) (by norm_num [dTenth])
        (by norm_num [dTenth]) (roundTiesEven_eq_of _ (5516909543528858) (by norm_num [dTenth]) (by norm_num [dTenth]))
        (by norm_num))
  have s3 : fpTrace 3 = { fpStart with timeLeft := (5460614548186727 : ℚ) / 562949953421312 } := by
    rw [(by norm_num : (3 : ℕ) = 2 + 1), step, s2]
    exact fpTick_pos_eq _ ((2758454771764429 : ℚ) / 281474976710656) ((5460614548186727 : ℚ) / 562949953421312) rfl rfl rfl rfl rfl (by norm_num)
      (fpSub_eq_pos _ _ (3) (5460614548186727) (by norm_num [dTenth]) (by norm_num [dTenth])
        (by norm_num [dTenth]) (roundTiesEven_eq_of _ (5460614548186727) (by norm_num [dTenth]) (by norm_num [dTenth]))
        (by norm_num))
  have s4 : fpTrace 4 = { fpStart with timeLeft := (1351079888211149 : ℚ) / 140737488355328 } := by
    rw [(by norm_num : (4 : ℕ) = 3 + 1), step, s3]
    exact fpTick_pos_eq _ ((5460614548186727 : ℚ) / 562949953421312) ((1351079888211149 : ℚ) / 140737488355328) rfl rfl rfl rfl rfl (by norm_num)
      (fpSub_eq_pos _ _ (3) (5404319552844596) (by norm_num [dTenth]) (by norm_num [dTenth])
        (by norm_num [dTenth]) (roundTiesEven_eq_of _ (5404319552844596) (by norm_num [dTenth]) (by norm_num [dTenth]))
        (by norm_num))
  have s5 : fpTrace 5 = { fpStart with timeLeft := (5348024557502465 : ℚ) / 562949953421312 } := by
    rw [(by norm_num : (5 : ℕ) = 4 + 1), step, s4]
    exact fpTick_pos_eq _ ((1351079888211149 : ℚ) / 140737488355328) ((5348024557502465 : ℚ) / 562949953421312) rfl rfl rfl rfl rfl (by norm_num)
      (fpSub_eq_pos _ _ (3) (5348024557502465) (by norm_num [dTenth]) (by norm_num [dTenth])
        (by norm_num [dTenth]) (roundTiesEven_eq_of _ (5348024557502465) (by norm_num [dTenth]) (by norm_num [dTenth]))
        (by norm_num))
  have s6 : fpTrace 6 = { fpStart with timeLeft := (2645864781080167 : ℚ) / 281474976710656 } := by
    rw [(by norm_num : (6 : ℕ) = 5 + 1), step, s5]
    exact fpTick_pos_eq _ ((5348024557502465 : ℚ) / 562949953421312) ((2645864781080167 : ℚ) / 281474976710656) rfl rfl rfl rfl rfl (by norm_num)
      (fpSub_eq_pos _ _ (3) (5291729562160334) (by norm_num [dTenth]) (by norm_num [dTenth])
        (by norm_num [dTenth]) (roundTiesEven_eq_of _ (5291729562160334) (by norm_num [dTenth]) (by norm_num [dTenth]))
        (by norm_num))
  have s7 : fpTrace 7 = { fpStart with timeLeft := (5235434566818203 : ℚ) / 562949953421312 } := by
    rw [(by norm_num : (7 : ℕ) = 6 + 1), step, s6]
    exact fpTick_pos_eq _ ((2645864781080167 : ℚ) / 281474976710656) ((5235434566818203 : ℚ) / 562949953421312) rfl rfl rfl rfl rfl (by norm_num)
      (fpSub_eq_pos _ _ (3) (5235434566818203) (by norm_num [dTenth]) (by norm_num [dTenth])
        (by norm_num [dTenth]) (roundTiesEven_eq_of _ (5235434566818203) (by norm_num [dTenth]) (by norm_num [dTenth]))
        (by norm_num))
  have s8 : fpTrace 8 = { fpStart with timeLeft := (647392446434509 : ℚ) / 70368744177664 } := by
    rw [(by norm_num : (8 : ℕ) = 7 + 1), step, s7]
    exact fpTick_pos_eq _ ((5235434566818203 : ℚ) / 562949953421312) ((647392446434509 : ℚ) / 70368744177664) rfl rfl rfl rfl rfl (by norm_num)
      (fpSub_eq_pos _ _ (3) (5179139571476072) (by norm_num [dTenth]) (by norm_num [dTenth])
        (by norm_num [dTenth]) (roundTiesEven_eq_of _ (5179139571476072) (by norm_num [dTenth]) (by norm_num [dTenth]))
        (by norm_num))
  have s9 : fpTrace 9 = { fpStart with timeLeft := (5122844576133941 : ℚ) / 562949953421312 } := by
    rw [(by norm_num : (9 : ℕ) = 8 + 1), step, s8]
    exact fpTick_pos_eq _ ((647392446434509 : ℚ) / 70368744177664) ((5122844576133941 : ℚ) / 562949953421312) rfl rfl rfl rfl rfl (by norm_num)
      (fpSub_eq_pos _ _ (3) (5122844576133941) (by norm_num [dTenth]) (by norm_num [dTenth])
        (by norm_num [dTenth]) (roundTiesEven_eq_of _ (5122844576133941) (by norm_num [dTenth]) (by norm_num [dTenth]))
        (by norm_num))
  have s10 : fpTrace 10 = { fpStart with timeLeft := (2533274790395905 : ℚ) / 281474976710656 } := by
    rw [(by norm_num : (10 : ℕ) = 9 + 1), step, s9]
    exact fpTick_pos_eq _ ((5122844576133941 : ℚ) / 562949953421312) ((2533274790395905 : ℚ) / 281474976710656) rfl rfl rfl rfl rfl (by norm_num)
      (fpSub_eq_pos _ _ (3) (5066549580791810) (by norm_num [dTenth]) (by norm_num [dTenth])
        (by norm_num [dTenth]) (roundTiesEven_eq_of _ (5066549580791810) (by norm_num [dTenth]) (by norm_num [dTenth]))
        (by norm_num))
  have s11 : fpTrace 11 = { fpStart with timeLeft := (5010254585449679 : ℚ) / 562949953421312 } := by
    rw [(by norm_num : (11 : ℕ) = 10 + 1), step, s10]
    exact fpTick_pos_eq _ ((2533274790395905 : ℚ) / 281474976710656) ((5010254585449679 : ℚ) / 562949953421312) rfl rfl rfl rfl rfl (by norm_num)
      (fpSub_eq_pos _ _ (3) (5010254585449679) (by norm_num [dTenth]) (by norm_num [dTenth])
        (by norm_num [dTenth]) (roundTiesEven_eq_of _ (5010254585449679) (by norm_num [dTenth]) (by norm_num [dTenth]))
        (by norm_num))
  have s12 : fpTrace 12 = { fpStart with timeLeft := (1238489897526887 : ℚ) / 140737488355328 } := by
    rw [(by norm_num : (12 : ℕ) = 11 + 1), step, s11]
    exact fpTick_pos_eq _ ((5010254585449679 : ℚ) / 562949953421312) ((1238489897526887 : ℚ) / 140737488355328) rfl rfl rfl rfl rfl (by norm_num)
      (fpSub_eq_pos _ _ (3) (4953959590107548) (by norm_num [dTenth]) (by norm_num [dTenth])
        (by norm_num [dTenth]) (roundTiesEven_eq_of _ (4953959590107548) (by norm_num [dTenth]) (by norm_num [dTenth]))
        (by norm_num))
  have s13 : fpTrace 13 = { fpStart with timeLeft := (4897664594765417 : ℚ) / 562949953421312 } := by
    rw [(by norm_num : (13 : ℕ) = 12 + 1), step, s12]
    exact fpTick_pos_eq _ ((1238489897526887 : ℚ) / 140737488355328) ((4897664594765417 : ℚ) / 562949953421312) rfl rfl rfl rfl rfl (by norm_num)
      (fpSub_eq_pos _ _ (3) (4897664594765417) (by norm_num [dTenth]) (by norm_num [dTenth])
        (by norm_num [dTenth]) (roundTiesEven_eq_of _ (4897664594765417) (by norm_num [dTenth]) (by norm_num [dTenth]))
        (by norm_num))
  have s14 : fpTrace 14 = { fpStart with timeLeft := (2420684799711643 : ℚ) / 281474976710656 } := by
    rw [(by norm_num : (14 : ℕ) = 13 + 1), step, s13]
    exact fpTick_pos_eq _ ((4897664594765417 : ℚ) / 562949953421312) ((2420684799711643 : ℚ) / 281474976710656) rfl rfl rfl rfl rfl (by norm_num)
      (fpSub_eq_pos _ _ (3) (4841369599423286) (by norm_num [dTenth]) (by norm_num [dTenth])
        (by norm_num [dTenth]) (roundTiesEven_eq_of _ (4841369599423286) (by norm_num [dTenth]) (by norm_num [dTenth]))
        (by norm_num))
  have s15 : fpTrace 15 = { fpStart with timeLeft := (4785074604081155 : ℚ) / 562949953421312 } := by
    rw [(by norm_num : (15 : ℕ) = 14 + 1), step, s14]
    exact fpTick_pos_eq _ ((2420684799711643 : ℚ) / 281474976710656) ((4785074604081155 : ℚ) / 562949953421312) rfl rfl rfl rfl rfl (by norm_num)
      (fpSub_eq_pos _ _ (3) (4785074604081155) (by norm_num [dTenth]) (by norm_num [dTenth])
        (by norm_num [dTenth]) (roundTiesEven_eq_of _ (4785074604081155) (by norm_num [dTenth]) (by norm_num [dTenth]))
        (by norm_num))
  have s16 : fpTrace 16 = { fpStart with timeLeft := (295548725546189 : ℚ) / 35184372088832 } := by
    rw [(by norm_num : (16 : ℕ) = 15 + 1), step, s15]
    exact fpTick_pos_eq _ ((4785074604081155 : ℚ) / 562949953421312) ((295548725546189 : ℚ) / 35184372088832) rfl rfl rfl rfl rfl (by norm_num)
      (fpSub_eq_pos _ _ (3) (4728779608739024) (by norm_num [dTenth]) (by norm_num [dTenth])
        (by norm_num [dTenth]) (roundTiesEven_eq_of _ (4728779608739024) (by norm_num [dTenth]) (by norm_num [dTenth]))
        (by norm_num))
  have s17 : fpTrace 17 = { fpStart with timeLeft := (4672484613396893 : ℚ) / 562949953421312 } := by
    rw [(by norm_num : (17 : ℕ) = 16 + 1), step, s16]
    exact fpTick_pos_eq _ ((295548725546189 : ℚ) / 35184372088832) ((4672484613396893 : ℚ) / 562949953421312) rfl rfl rfl rfl rfl (by norm_num)
      (fpSub_eq_pos _ _ (3) (4672484613396893) (by norm_num [dTenth]) (by norm_num [dTenth])
        (by norm_num [dTenth]) (roundTiesEven_eq_of _ (4672484613396893) (by norm_num [dTenth]) (by norm_num [dTenth]))
        (by norm_num))
  have s18 : fpTrace 18 = { fpStart with timeLeft := (2308094809027381 : ℚ) / 281474976710656 } := by
    rw [(by norm_num : (18 : ℕ) = 17 + 1), step, s17]
    exact fpTick_pos_eq _ ((4672484613396893 : ℚ) / 562949953421312) ((2308094809027381 : ℚ) / 281474976710656) rfl rfl rfl rfl rfl (by norm_num)
      (fpSub_eq_pos _ _ (3) (4616189618054762) (by norm_num [dTenth]) (by norm_num [dTenth])
        (by norm_num [dTenth]) (roundTiesEven_eq_of _ (4616189618054762) (by norm_num [dTenth]) (by norm_num [dTenth]))
        (by norm_num))
  have s19 : fpTrace 19 = { fpStart with timeLeft := (4559894622712631 : ℚ) / 562949953421312 } := by
    rw [(by norm_num : (19 : ℕ) = 18 + 1), step, s18]
    exact fpTick_pos_eq _ ((2308094809027381 : ℚ) / 281474976710656) ((4559894622712631 : ℚ) / 562949953421312) rfl rfl rfl rfl rfl (by norm_num)
      (fpSub_eq_pos _ _ (3) (4559894622712631) (by norm_num [dTenth]) (by norm_num [dTenth])
        (by norm_num [dTenth]) (roundTiesEven_eq_of _ (4559894622712631) (by norm_num [dTenth]) (by norm_num [dTenth]))
        (by norm_num))
  have s20 : fpTrace 20 = { fpStart with timeLeft := (1125899906842625 : ℚ) / 140737488355328 } := by
    rw [(by norm_num : (20 : ℕ) = 19 + 1), step, s19]
    exact fpTick_pos_eq _ ((4559894622712631 : ℚ) / 562949953421312) ((1125899906842625 : ℚ) / 140737488355328) rfl rfl rfl rfl rfl (by norm_num)
      (fpSub_eq_pos _ _ (3) (4503599627370500) (by norm_num [dTenth]) (by norm_num [dTenth])
        (by norm_num [dTenth]) (roundTiesEven_eq_of _ (4503599627370500) (by norm_num [dTenth]) (by norm_num [dTenth]))
        (by norm_num))
  have s21 : fpTrace 21 = { fpStart with timeLeft := (4447304632028369 : ℚ) / 562949953421312 } := by
    rw [(by norm_num : (21 : ℕ) = 20 + 1), step, s20]
    exact fpTick_pos_eq _ ((1125899906842625 : ℚ) / 140737488355328) ((4447304632028369 : ℚ) / 562949953421312) rfl rfl rfl rfl rfl (by norm_num)
      (fpSub_eq_pos _ _ (2) (8894609264056738) (by norm_num [dTenth]) (by norm_num [dTenth])
        (by norm_num [dTenth]) (roundTiesEven_eq_of _ (8894609264056738) (by norm_num [dTenth]) (by norm_num [dTenth]))
        (by norm_num))
  have s22 : fpTrace 22 = { fpStart with timeLeft := (2195504818343119 : ℚ) / 281474976710656 } := by
    rw [(by norm_num : (22 : ℕ) = 21 + 1), step, s21]
    exact fpTick_pos_eq _ ((4447304632028369 : ℚ) / 562949953421312) ((2195504818343119 : ℚ) / 281474976710656) rfl rfl rfl rfl rfl (by norm_num)
      (fpSub_eq_pos _ _ (2) (8782019273372476) (by norm_num [dTenth]) (by norm_num [dTenth])
        (by norm_num [dTenth]) (roundTiesEven_eq_of _ (8782019273372476) (by norm_num [dTenth]) (by norm_num [dTenth]))
        (by norm_num))
  have s23 : fpTrace 23 = { fpStart with timeLeft := (4334714641344107 : ℚ) / 562949953421312 } := by
    rw [(by norm_num : (23 : ℕ) = 22 + 1), step, s22]
    exact fpTick_pos_eq _ ((2195504818343119 : ℚ) / 281474976710656) ((4334714641344107 : ℚ) / 562949953421312) rfl rfl rfl rfl rfl (by norm_num)
      (fpSub_eq_pos _ _ (2) (8669429282688214) (by norm_num [dTenth]) (by norm_num [dTenth])
        (by norm_num [dTenth]) (roundTiesEven_eq_of _ (8669429282688214) (by norm_num [dTenth]) (by norm_num [dTenth]))
        (by norm_num))
  have s24 : fpTrace 24 = { fpStart with timeLeft := (534802455750247 : ℚ) / 70368744177664 } := by
    rw [(by norm_num : (24 : ℕ) = 23 + 1), step, s23]
    exact fpTick_pos_eq _ ((4334714641344107 : ℚ) / 562949953421312) ((534802455750247 : ℚ) / 70368744177664) rfl rfl rfl rfl rfl (by norm_num)
      (fpSub_eq_pos _ _ (2) (8556839292003952) (by norm_num [dTenth]) (by norm_num [dTenth])
        (by norm_num [dTenth]) (roundTiesEven_eq_of _ (8556839292003952) (by norm_num [dTenth]) (by norm_num [dTenth]))
        (by norm_num))
  have s25 : fpTrace 25 = { fpStart with timeLeft := (4222124650659845 : ℚ) / 562949953421312 } := by
    rw [(by norm_num : (25 : ℕ) = 24 + 1), step, s24]
    exact fpTick_pos_eq _ ((534802455750247 : ℚ) / 70368744177664) ((4222124650659845 : ℚ) / 562949953421312) rfl rfl rfl rfl rfl (by norm_num)
      (fpSub_eq_pos _ _ (2) (8444249301319690) (by norm_num [dTenth]) (by norm_num [dTenth])
        (by norm_num [dTenth]) (roundTiesEven_eq_of _ (8444249301319690) (by norm_num [dTenth]) (by norm_num [dTenth]))
        (by norm_num))
  have s26 : fpTrace 26 = { fpStart with timeLeft := (2082914827658857 : ℚ) / 281474976710656 } := by
    rw [(by norm_num : (26 : ℕ) = 25 + 1), step, s25]
    exact fpTick_pos_eq _ ((4222124650659845 : ℚ) / 562949953421312) ((2082914827658857 : ℚ) / 281474976710656) rfl rfl rfl rfl rfl (by norm_num)
      (fpSub_eq_pos _ _ (2) (8331659310635428) (by norm_num [dTenth]) (by norm_num [dTenth])
        (by norm_num [dTenth]) (roundTiesEven_eq_of _ (8331659310635428) (by norm_num [dTenth]) (by norm_num [dTenth]))
        (by norm_num))
  have s27 : fpTrace 27 = { fpStart with timeLeft := (4109534659975583 : ℚ) / 562949953421312 } := by
    rw [(by norm_num : (27 : ℕ) = 26 + 1), step, s26]
    exact fpTick_pos_eq _ ((2082914827658857 : ℚ) / 281474976710656) ((4109534659975583 : ℚ) / 562949953421312) rfl rfl rfl rfl rfl (by norm_num)
      (fpSub_eq_pos _ _ (2) (8219069319951166) (by norm_num [dTenth]) (by norm_num [dTenth])
        (by norm_num [dTenth]) (roundTiesEven_eq_of _ (8219069319951166) (by norm_num [dTenth]) (by norm_num [dTenth]))
        (by norm_num))
  have s28 : fpTrace 28 = { fpStart with timeLeft := (1013309916158363 : ℚ) / 140737488355328 } := by
    rw [(by norm_num : (28 : ℕ) = 27 + 1), step, s27]
    exact fpTick_pos_eq _ ((4109534659975583 : ℚ) / 562949953421312) ((1013309916158363 : ℚ) / 140737488355328) rfl rfl rfl rfl rfl (by norm_num)
      (fpSub_eq_pos _ _ (2) (8106479329266904) (by norm_num [dTenth]) (by norm_num [dTenth])
        (by norm_num [dTenth]) (roundTiesEven_eq_of _ (8106479329266904) (by norm_num [dTenth]) (by norm_num [dTenth]))
        (by norm_num))
  have s29 : fpTrace 29 = { fpStart with timeLeft := (3996944669291321 : ℚ) / 562949953421312 } := by
    rw [(by norm_num : (29 : ℕ) = 28 + 1), step, s28]
    exact fpTick_pos_eq _ ((1013309916158363 : ℚ) / 140737488355328) ((3996944669291321 : ℚ) / 562949953421312) rfl rfl rfl rfl rfl (by norm_num)
      (fpSub_eq_pos _ _ (2) (7993889338582642) (by norm_num [dTenth]) (by norm_num [dTenth])
        (by norm_num [dTenth]) (roundTiesEven_eq_of _ (7993889338582642) (by norm_num [dTenth]) (by norm_num [dTenth]))
        (by norm_num))
  have s30 : fpTrace 30 = { fpStart with timeLeft := (1970324836974595 : ℚ) / 281474976710656 } := by
    rw [(by norm_num : (30 : ℕ) = 29 + 1), step, s29]
    exact fpTick_pos_eq _ ((3996944669291321 : ℚ) / 562949953421312) ((1970324836974595 : ℚ) / 281474976710656) rfl rfl rfl rfl rfl (by norm_num)
      (fpSub_eq_pos _ _ (2) (7881299347898380) (by norm_num [dTenth]) (by norm_num [dTenth])
        (by norm_num [dTenth]) (roundTiesEven_eq_of _ (7881299347898380) (by norm_num [dTenth]) (by norm_num [dTenth]))
        (by norm_num))
  have s31 : fpTrace 31 = { fpStart with timeLeft := (3884354678607059 : ℚ) / 562949953421312 } := by
    rw [(by norm_num : (31 : ℕ) = 30 + 1), step, s30]
    exact fpTick_pos_eq _ ((1970324836974595 : ℚ) / 281474976710656) ((3884354678607059 : ℚ) / 562949953421312) rfl rfl rfl rfl rfl (by norm_num)
      (fpSub_eq_pos _ _ (2) (7768709357214118) (by norm_num [dTenth]) (by norm_num [dTenth])
        (by norm_num [dTenth]) (roundTiesEven_eq_of _ (7768709357214118) (by norm_num [dTenth]) (by norm_num [dTenth]))
        (by norm_num))
  have s32 : fpTrace 32 = { fpStart with timeLeft := (119626865102029 : ℚ) / 17592186044416 } := by
    rw [(by norm_num : (32 : ℕ) = 31 + 1), step, s31]
    exact fpTick_pos_eq _ ((3884354678607059 : ℚ) / 562949953421312) ((119626865102029 : ℚ) / 17592186044416) rfl rfl rfl rfl rfl (by norm_num)
      (fpSub_eq_pos _ _ (2) (7656119366529856) (by norm_num [dTenth]) (by norm_num [dTenth])
        (by norm_num [dTenth]) (roundTiesEven_eq_of _ (7656119366529856) (by norm_num [dTenth]) (by norm_num [dTenth]))
        (by norm_num))
  have s33 : fpTrace 33 = { fpStart with timeLeft := (3771764687922797 : ℚ) / 562949953421312 } := by
    rw [(by norm_num : (33 : ℕ) = 32 + 1), step, s32]
    exact fpTick_pos_eq _ ((119626865102029 : ℚ) / 17592186044416) ((3771764687922797 : ℚ) / 562949953421312) rfl rfl rfl rfl rfl (by norm_num)
      (fpSub_eq_pos _ _ (2) (7543529375845594) (by norm_num [dTenth]) (by norm_num [dTenth])
        (by norm_num [dTenth]) (roundTiesEven_eq_of _ (7543529375845594) (by norm_num [dTenth]) (by norm_num [dTenth]))
        (by norm_num))
  have s34 : fpTrace 34 = { fpStart with timeLeft := (1857734846290333 : ℚ) / 281474976710656 } := by
    rw [(by norm_num : (34 : ℕ) = 33 + 1), step, s33]
    exact fpTick_pos_eq _ ((3771764687922797 : ℚ) / 562949953421312) ((1857734846290333 : ℚ) / 281474976710656) rfl rfl rfl rfl rfl (by norm_num)
      (fpSub_eq_pos _ _ (2) (7430939385161332) (by norm_num [dTenth]) (by norm_num [dTenth])
        (by norm_num [dTenth]) (roundTiesEven_eq_of _ (7430939385161332) (by norm_num [dTenth]) (by norm_num [dTenth]))
        (by norm_num))
  have s35 : fpTrace 35 = { fpStart with timeLeft := (3659174697238535 : ℚ) / 562949953421312 } := by
    rw [(by norm_num : (35 : ℕ) = 34 + 1), step, s34]
    exact fpTick_pos_eq _ ((1857734846290333 : ℚ) / 281474976710656) ((3659174697238535 : ℚ) / 562949953421312) rfl rfl rfl rfl rfl (by norm_num)
      (fpSub_eq_pos _ _ (2) (7318349394477070) (by norm_num [dTenth]) (by norm_num [dTenth])
        (by norm_num [dTenth]) (roundTiesEven_eq_of _ (7318349394477070) (by norm_num [dTenth]) (by norm_num [dTenth]))
        (by norm_num))
  have s36 : fpTrace 36 = { fpStart with timeLeft := (900719925474101 : ℚ) / 140737488355328 } := by
    rw [(by norm_num : (36 : ℕ) = 35 + 1), step, s35]
    exact fpTick_pos_eq _ ((3659174697238535 : ℚ) / 562949953421312) ((900719925474101 : ℚ) / 140737488355328) rfl rfl rfl rfl rfl (by norm_num)
      (fpSub_eq_pos _ _ (2) (7205759403792808) (by norm_num [dTenth]) (by norm_num [dTenth])
        (by norm_num [dTenth]) (roundTiesEven_eq_of _ (7205759403792808) (by norm_num [dTenth]) (by norm_num [dTenth]))
        (by norm_num))
  have s37 : fpTrace 37 = { fpStart with timeLeft := (3546584706554273 : ℚ) / 562949953421312 } := by
    rw [(by norm_num : (37 : ℕ) = 36 + 1), step, s36]
    exact fpTick_pos_eq _ ((900719925474101 : ℚ) / 140737488355328) ((3546584706554273 : ℚ) / 562949953421312) rfl rfl rfl rfl rfl (by norm_num)
      (fpSub_eq_pos _ _ (2) (7093169413108546) (by norm_num [dTenth]) (by norm_num [dTenth])
        (by norm_num [dTenth]) (roundTiesEven_eq_of _ (7093169413108546) (by norm_num [dTenth]) (by norm_num [dTenth]))
        (by norm_num))
  have s38 : fpTrace 38 = { fpStart with timeLeft := (1745144855606071 : ℚ) / 281474976710656 } := by
    rw [(by norm_num : (38 : ℕ) = 37 + 1), step, s37]
    exact fpTick_pos_eq _ ((3546584706554273 : ℚ) / 562949953421312) ((1745144855606071 : ℚ) / 281474976710656) rfl rfl rfl rfl rfl (by norm_num)
      (fpSub_eq_pos _ _ (2) (6980579422424284) (by norm_num [dTenth]) (by norm_num [dTenth])
        (by norm_num [dTenth]) (roundTiesEven_eq_of _ (6980579422424284) (by norm_num [dTenth]) (by norm_num [dTenth]))
        (by norm_num))
  have s39 : fpTrace 39 = { fpStart with timeLeft := (3433994715870011 : ℚ) / 562949953421312 } := by
    rw [(by norm_num : (39 : ℕ) = 38 + 1), step, s38]
    exact fpTick_pos_eq _ ((1745144855606071 : ℚ) / 281474976710656) ((3433994715870011 : ℚ) / 562949953421312) rfl rfl rfl rfl rfl (by norm_num)
      (fpSub_eq_pos _ _ (2) (6867989431740022) (by norm_num [dTenth]) (by norm_num [dTenth])
        (by norm_num [dTenth]) (roundTiesEven_eq_of _ (6867989431740022) (by norm_num [dTenth]) (by norm_num [dTenth]))
        (by norm_num))
  have s40 : fpTrace 40 = { fpStart with timeLeft := (422212465065985 : ℚ) / 70368744177664 } := by
    rw [(by norm_num : (40 : ℕ) = 39 + 1), step, s39]
    exact fpTick_pos_eq _ ((3433994715870011 : ℚ) / 562949953421312) ((422212465065985 : ℚ) / 70368744177664) rfl rfl rfl rfl rfl (by norm_num)
      (fpSub_eq_pos _ _ (2) (6755399441055760) (by norm_num [dTenth]) (by norm_num [dTenth])
        (by norm_num [dTenth]) (roundTiesEven_eq_of _ (6755399441055760) (by norm_num [dTenth]) (by norm_num [dTenth]))
        (by norm_num))
  have s41 : fpTrace 41 = { fpStart with timeLeft := (3321404725185749 : ℚ) / 562949953421312 } := by
    rw [(by norm_num : (41 : ℕ) = 40 + 1), step, s40]
    exact fpTick_pos_eq _ ((422212465065985 : ℚ) / 70368744177664) ((3321404725185749 : ℚ) / 562949953421312) rfl rfl rfl rfl rfl (by norm_num)
      (fpSub_eq_pos _ _ (2) (6642809450371498) (by norm_num [dTenth]) (by norm_num [dTenth])
        (by norm_num [dTenth]) (roundTiesEven_eq_of _ (6642809450371498) (by norm_num [dTenth]) (by norm_num [dTenth]))
        (by norm_num))
  have s42 : fpTrace 42 = { fpStart with timeLeft := (1632554864921809 : ℚ) / 281474976710656 } := by
    rw [(by norm_num : (42 : ℕ) = 41 + 1), step, s41]
    exact fpTick_pos_eq _ ((3321404725185749 : ℚ) / 562949953421312) ((1632554864921809 : ℚ) / 281474976710656) rfl rfl rfl rfl rfl (by norm_num)
      (fpSub_eq_pos _ _ (2) (6530219459687236) (by norm_num [dTenth]) (by norm_num [dTenth])
        (by norm_num [dTenth]) (roundTiesEven_eq_of _ (6530219459687236) (by norm_num [dTenth]) (by norm_num [dTenth]))
        (by norm_num))
  have s43 : fpTrace 43 = { fpStart with timeLeft := (3208814734501487 : ℚ) / 562949953421312 } := by
    rw [(by norm_num : (43 : ℕ) = 42 + 1), step, s42]
    exact fpTick_pos_eq _ ((1632554864921809 : ℚ) / 281474976710656) ((3208814734501487 : ℚ) / 562949953421312) rfl rfl rfl rfl rfl (by norm_num)
      (fpSub_eq_pos _ _ (2) (6417629469002974) (by norm_num [dTenth]) (by norm_num [dTenth])
        (by norm_num [dTenth]) (roundTiesEven_eq_of _ (6417629469002974) (by norm_num [dTenth]) (by norm_num [dTenth]))
        (by norm_num))
  have s44 : fpTrace 44 = { fpStart with timeLeft := (788129934789839 : ℚ) / 140737488355328 } := by
    rw [(by norm_num : (44 : ℕ) = 43 + 1), step, s43]
    exact fpTick_pos_eq _ ((3208814734501487 : ℚ) / 562949953421312) ((788129934789839 : ℚ) / 140737488355328) rfl rfl rfl rfl rfl (by norm_num)
      (fpSub_eq_pos _ _ (2) (6305039478318712) (by norm_num [dTenth]) (by norm_num [dTenth])
        (by norm_num [dTenth]) (roundTiesEven_eq_of _ (6305039478318712) (by norm_num [dTenth]) (by norm_num [dTenth]))
        (by norm_num))
  have s45 : fpTrace 45 = { fpStart with timeLeft := (3096224743817225 : ℚ) / 562949953421312 } := by
    rw [(by norm_num : (45 : ℕ) = 44 + 1), step, s44]
    exact fpTick_pos_eq _ ((788129934789839 : ℚ) / 140737488355328) ((3096224743817225 : ℚ) / 562949953421312) rfl rfl rfl rfl rfl (by norm_num)
      (fpSub_eq_pos _ _ (2) (6192449487634450) (by norm_num [dTenth]) (by norm_num [dTenth])
        (by norm_num [dTenth]) (roundTiesEven_eq_of _ (6192449487634450) (by norm_num [dTenth]) (by norm_num [dTenth]))
        (by norm_num))
  have s46 : fpTrace 46 = { fpStart with timeLeft := (1519964874237547 : ℚ) / 281474976710656 } := by
    rw [(by norm_num : (46 : ℕ) = 45 + 1), step, s45]
    exact fpTick_pos_eq _ ((3096224743817225 : ℚ) / 562949953421312) ((1519964874237547 : ℚ) / 281474976710656) rfl rfl rfl rfl rfl (by norm_num)
      (fpSub_eq_pos _ _ (2) (6079859496950188) (by norm_num [dTenth]) (by norm_num [dTenth])
        (by norm_num [dTenth]) (roundTiesEven_eq_of _ (6079859496950188) (by norm_num [dTenth]) (by norm_num [dTenth]))
        (by norm_num))
  have s47 : fpTrace 47 = { fpStart with timeLeft := (2983634753132963 : ℚ) / 562949953421312 } := by
    rw [(by norm_num : (47 : ℕ) = 46 + 1), step, s46]
    exact fpTick_pos_eq _ ((1519964874237547 : ℚ) / 281474976710656) ((2983634753132963 : ℚ) / 562949953421312) rfl rfl rfl rfl rfl (by norm_num)
      (fpSub_eq_pos _ _ (2) (5967269506265926) (by norm_num [dTenth]) (by norm_num [dTenth])
        (by norm_num [dTenth]) (roundTiesEven_eq_of _ (5967269506265926) (by norm_num [dTenth]) (by norm_num [dTenth]))
        (by norm_num))
  have s48 : fpTrace 48 = { fpStart with timeLeft := (182958734861927 : ℚ) / 35184372088832 } := by
    rw [(by norm_num : (48 : ℕ) = 47 + 1), step, s47]
    exact fpTick_pos_eq _ ((2983634753132963 : ℚ) / 562949953421312) ((182958734861927 : ℚ) / 35184372088832) rfl rfl rfl rfl rfl (by norm_num)
      (fpSub_eq_pos _ _ (2) (5854679515581664) (by norm_num [dTenth]) (by norm_num [dTenth])
        (by norm_num [dTenth]) (roundTiesEven_eq_of _ (5854679515581664) (by norm_num [dTenth]) (by norm_num [dTenth]))
        (by norm_num))
  have s49 : fpTrace 49 = { fpStart with timeLeft := (2871044762448701 : ℚ) / 562949953421312 } := by
    rw [(by norm_num : (49 : ℕ) = 48 + 1), step, s48]
    exact fpTick_pos_eq _ ((182958734861927 : ℚ) / 35184372088832) ((2871044762448701 : ℚ) / 562949953421312) rfl rfl rfl rfl rfl (by norm_num)
      (fpSub_eq_pos _ _ (2) (5742089524897402) (by norm_num [dTenth]) (by norm_num [dTenth])
        (by norm_num [dTenth]) (roundTiesEven_eq_of _ (5742089524897402) (by norm_num [dTenth]) (by norm_num [dTenth]))
        (by norm_num))
  have s50 : fpTrace 50 = { fpStart with timeLeft := (1407374883553285 : ℚ) / 281474976710656 } := by
    rw [(by norm_num : (50 : ℕ) = 49 + 1), step, s49]
    exact fpTick_pos_eq _ ((2871044762448701 : ℚ) / 562949953421312) ((1407374883553285 : ℚ) / 281474976710656) rfl rfl rfl rfl rfl (by norm_num)
      (fpSub_eq_pos _ _ (2) (5629499534213140) (by norm_num [dTenth]) (by norm_num [dTenth])
        (by norm_num [dTenth]) (roundTiesEven_eq_of _ (5629499534213140) (by norm_num [dTenth]) (by norm_num [dTenth]))
        (by norm_num))
  have s51 : fpTrace 51 = { fpStart with timeLeft := (2758454771764439 : ℚ) / 562949953421312 } := by
    rw [(by norm_num : (51 : ℕ) = 50 + 1), step, s50]
    exact fpTick_pos_eq _ ((1407374883553285 : ℚ) / 281474976710656) ((2758454771764439 : ℚ) / 562949953421312) rfl rfl rfl rfl rfl (by norm_num)
      (fpSub_eq_pos _ _ (2) (5516909543528878) (by norm_num [dTenth]) (by norm_num [dTenth])
        (by norm_num [dTenth]) (roundTiesEven_eq_of _ (5516909543528878) (by norm_num [dTenth]) (by norm_num [dTenth]))
        (by norm_num))
  have s52 : fpTrace 52 = { fpStart with timeLeft := (675539944105577 : ℚ) / 140737488355328 } := by
    rw [(by norm_num : (52 : ℕ) = 51 + 1), step, s51]
    exact fpTick_pos_eq _ ((2758454771764439 : ℚ) / 562949953421312) ((675539944105577 : ℚ) / 140737488355328) rfl rfl rfl rfl rfl (by norm_num)
      (fpSub_eq_pos _ _ (2) (5404319552844616) (by norm_num [dTenth]) (by norm_num [dTenth])
        (by norm_num [dTenth]) (roundTiesEven_eq_of _ (5404319552844616) (by norm_num [dTenth]) (by norm_num [dTenth]))
        (by norm_num))
  have s53 : fpTrace 53 = { fpStart with timeLeft := (2645864781080177 : ℚ) / 562949953421312 } := by
    rw [(by norm_num : (53 : ℕ) = 52 + 1), step, s52]
    exact fpTick_pos_eq _ ((675539944105577 : ℚ) / 140737488355328) ((2645864781080177 : ℚ) / 562949953421312) rfl rfl rfl rfl rfl (by norm_num)
      (fpSub_eq_pos _ _ (2) (5291729562160354) (by norm_num [dTenth]) (by norm_num [dTenth])
        (by norm_num [dTenth]) (roundTiesEven_eq_of _ (5291729562160354) (by norm_num [dTenth]) (by norm_num [dTenth]))
        (by norm_num))
  have s54 : fpTrace 54 = { fpStart with timeLeft := (1294784892869023 : ℚ) / 281474976710656 } := by
    rw [(by norm_num : (54 : ℕ) = 53 + 1), step, s53]
    exact fpTick_pos_eq _ ((2645864781080177 : ℚ) / 562949953421312) ((1294784892869023 : ℚ) / 281474976710656) rfl rfl rfl rfl rfl (by norm_num)
      (fpSub_eq_pos _ _ (2) (5179139571476092) (by norm_num [dTenth]) (by norm_num [dTenth])
        (by norm_num [dTenth]) (roundTiesEven_eq_of _ (5179139571476092) (by norm_num [dTenth]) (by norm_num [dTenth]))
        (by norm_num))
  have s55 : fpTrace 55 = { fpStart with timeLeft := (2533274790395915 : ℚ) / 562949953421312 } := by
    rw [(by norm_num : (55 : ℕ) = 54 + 1), step, s54]
    exact fpTick_pos_eq _ ((1294784892869023 : ℚ) / 281474976710656) ((2533274790395915 : ℚ) / 562949953421312) rfl rfl rfl rfl rfl (by norm_num)
      (fpSub_eq_pos _ _ (2) (5066549580791830) (by norm_num [dTenth]) (by norm_num [dTenth])
        (by norm_num [dTenth]) (roundTiesEven_eq_of _ (5066549580791830) (by norm_num [dTenth]) (by norm_num [dTenth]))
        (by norm_num))
  have s56 : fpTrace 56 = { fpStart with timeLeft := (309622474381723 : ℚ) / 70368744177664 } := by
    rw [(by norm_num : (56 : ℕ) = 55 + 1), step, s55]
    exact fpTick_pos_eq _ ((2533274790395915 : ℚ) / 562949953421312) ((309622474381723 : ℚ) / 70368744177664) rfl rfl rfl rfl rfl (by norm_num)
      (fpSub_eq_pos _ _ (2) (4953959590107568) (by norm_num [dTenth]) (by norm_num [dTenth])
        (by norm_num [dTenth]) (roundTiesEven_eq_of _ (4953959590107568) (by norm_num [dTenth]) (by norm_num [dTenth]))
        (by norm_num))
  have s57 : fpTrace 57 = { fpStart with timeLeft := (2420684799711653 : ℚ) / 562949953421312 } := by
    rw [(by norm_num : (57 : ℕ) = 56 + 1), step, s56]
    exact fpTick_pos_eq _ ((309622474381723 : ℚ) / 70368744177664) ((2420684799711653 : ℚ) / 562949953421312) rfl rfl rfl rfl rfl (by norm_num)
      (fpSub_eq_pos _ _ (2) (4841369599423306) (by norm_num [dTenth]) (by norm_num [dTenth])
        (by norm_num [dTenth]) (roundTiesEven_eq_of _ (4841369599423306) (by norm_num [dTenth]) (by norm_num [dTenth]))
        (by norm_num))
  have s58 : fpTrace 58 = { fpStart with timeLeft := (1182194902184761 : ℚ) / 281474976710656 } := by
    rw [(by norm_num : (58 : ℕ) = 57 + 1), step, s57]
    exact fpTick_pos_eq _ ((2420684799711653 : ℚ) / 562949953421312) ((1182194902184761 : ℚ) / 281474976710656) rfl rfl rfl rfl rfl (by norm_num)
      (fpSub_eq_pos _ _ (2) (4728779608739044) (by norm_num [dTenth]) (by norm_num [dTenth])
        (by norm_num [dTenth]) (roundTiesEven_eq_of _ (4728779608739044) (by norm_num [dTenth]) (by norm_num [dTenth]))
        (by norm_num))
  have s59 : fpTrace 59 = { fpStart with timeLeft := (2308094809027391 : ℚ) / 562949953421312 } := by
    rw [(by norm_num : (59 : ℕ) = 58 + 1), step, s58]
    exact fpTick_pos_eq _ ((1182194902184761 : ℚ) / 281474976710656) ((2308094809027391 : ℚ) / 562949953421312) rfl rfl rfl rfl rfl (by norm_num)
      (fpSub_eq_pos _ _ (2) (4616189618054782) (by norm_num [dTenth]) (by norm_num [dTenth])
        (by norm_num [dTenth]) (roundTiesEven_eq_of _ (4616189618054782) (by norm_num [dTenth]) (by norm_num [dTenth]))
        (by norm_num))
  have s60 : fpTrace 60 = { fpStart with timeLeft := (562949953421315 : ℚ) / 140737488355328 } := by
    rw [(by norm_num : (60 : ℕ) = 59 + 1), step, s59]
    exact fpTick_pos_eq _ ((2308094809027391 : ℚ) / 562949953421312) ((562949953421315 : ℚ) / 140737488355328) rfl rfl rfl rfl rfl (by norm_num)
      (fpSub_eq_pos _ _ (2) (4503599627370520) (by norm_num [dTenth]) (by norm_num [dTenth])
        (by norm_num [dTenth]) (roundTiesEven_eq_of _ (4503599627370520) (by norm_num [dTenth]) (by norm_num [dTenth]))
        (by norm_num))
  have s61 : fpTrace 61 = { fpStart with timeLeft := (8782019273372515 : ℚ) / 2251799813685248 } := by
    rw [(by norm_num : (61 : ℕ) = 60 + 1), step, s60]
    exact fpTick_pos_eq _ ((562949953421315 : ℚ) / 140737488355328) ((8782019273372515 : ℚ) / 2251799813685248) rfl rfl rfl rfl rfl (by norm_num)
      (fpSub_eq_pos _ _ (1) (8782019273372515) (by norm_num [dTenth]) (by norm_num [dTenth])
        (by norm_num [dTenth]) (roundTiesEven_eq_of _ (8782019273372515) (by norm_num [dTenth]) (by norm_num [dTenth]))
        (by norm_num))
  have s62 : fpTrace 62 = { fpStart with timeLeft := (4278419646001995 : ℚ) / 1125899906842624 } := by
    rw [(by norm_num : (62 : ℕ) = 61 + 1), step, s61]
    exact fpTick_pos_eq _ ((8782019273372515 : ℚ) / 2251799813685248) ((4278419646001995 : ℚ) / 1125899906842624) rfl rfl rfl rfl rfl (by norm_num)
      (fpSub_eq_pos _ _ (1) (8556839292003990) (by norm_num [dTenth]) (by norm_num [dTenth])
        (by norm_num [dTenth]) (roundTiesEven_eq_of _ (8556839292003990) (by norm_num [dTenth]) (by norm_num [dTenth]))
        (by norm_num))
  have s63 : fpTrace 63 = { fpStart with timeLeft := (8331659310635465 : ℚ) / 2251799813685248 } := by
    rw [(by norm_num : (63 : ℕ) = 62 + 1), step, s62]
    exact fpTick_pos_eq _ ((4278419646001995 : ℚ) / 1125899906842624) ((8331659310635465 : ℚ) / 2251799813685248) rfl rfl rfl rfl rfl (by norm_num)
      (fpSub_eq_pos _ _ (1) (8331659310635465) (by norm_num [dTenth]) (by norm_num [dTenth])
        (by norm_num [dTenth]) (roundTiesEven_eq_of _ (8331659310635465) (by norm_num [dTenth]) (by norm_num [dTenth]))
        (by norm_num))
  have s64 : fpTrace 64 = { fpStart with timeLeft := (2026619832316735 : ℚ) / 562949953421312 } := by
    rw [(by norm_num : (64 : ℕ) = 63 + 1), step, s63]
    exact fpTick_pos_eq _ ((8331659310635465 : ℚ) / 2251799813685248) ((2026619832316735 : ℚ) / 562949953421312) rfl rfl rfl rfl rfl (by norm_num)
      (fpSub_eq_pos _ _ (1) (8106479329266940) (by norm_num [dTenth]) (by norm_num [dTenth])
        (by norm_num [dTenth]) (roundTiesEven_eq_of _ (8106479329266940) (by norm_num [dTenth]) (by norm_num [dTenth]))
        (by norm_num))
  have s65 : fpTrace 65 = { fpStart with timeLeft := (7881299347898415 : ℚ) / 2251799813685248 } := by
    rw [(by norm_num : (65 : ℕ) = 64 + 1), step, s64]
    exact fpTick_pos_eq _ ((2026619832316735 : ℚ) / 562949953421312) ((7881299347898415 : ℚ) / 2251799813685248) rfl rfl rfl rfl rfl (by norm_num)
      (fpSub_eq_pos _ _ (1) (7881299347898415) (by norm_num [dTenth]) (by norm_num [dTenth])
        (by norm_num [dTenth]) (roundTiesEven_eq_of _ (7881299347898415) (by norm_num [dTenth]) (by norm_num [dTenth]))
        (by norm_num))
  have s66 : fpTrace 66 = { fpStart with timeLeft := (3828059683264945 : ℚ) / 1125899906842624 } := by
    rw [(by norm_num : (66 : ℕ) = 65 + 1), step, s65]
    exact fpTick_pos_eq _ ((7881299347898415 : ℚ) / 2251799813685248) ((3828059683264945 : ℚ) / 1125899906842624) rfl rfl rfl rfl rfl (by norm_num)
      (fpSub_eq_pos _ _ (1) (7656119366529890) (by norm_num [dTenth]) (by norm_num [dTenth])
        (by norm_num [dTenth]) (roundTiesEven_eq_of _ (7656119366529890) (by norm_num [dTenth]) (by norm_num [dTenth]))
        (by norm_num))
  have s67 : fpTrace 67 = { fpStart with timeLeft := (7430939385161365 : ℚ) / 2251799813685248 } := by
    rw [(by norm_num : (67 : ℕ) = 66 + 1), step, s66]
    exact fpTick_pos_eq _ ((3828059683264945 : ℚ) / 1125899906842624) ((7430939385161365 : ℚ) / 2251799813685248) rfl rfl rfl rfl rfl (by norm_num)
      (fpSub_eq_pos _ _ (1) (7430939385161365) (by norm_num [dTenth]) (by norm_num [dTenth])
        (by norm_num [dTenth]) (roundTiesEven_eq_of _ (7430939385161365) (by norm_num [dTenth]) (by norm_num [dTenth]))
        (by norm_num))
  have s68 : fpTrace 68 = { fpStart with timeLeft := (900719925474105 : ℚ) / 281474976710656 } := by
    rw [(by norm_num : (68 : ℕ) = 67 + 1), step, s67]
    exact fpTick_pos_eq _ ((7430939385161365 : ℚ) / 2251799813685248) ((900719925474105 : ℚ) / 281474976710656) rfl rfl rfl rfl rfl (by norm_num)
      (fpSub_eq_pos _ _ (1) (7205759403792840) (by norm_num [dTenth]) (by norm_num [dTenth])
        (by norm_num [dTenth]) (roundTiesEven_eq_of _ (7205759403792840) (by norm_num [dTenth]) (by norm_num [dTenth]))
        (by norm_num))
  have s69 : fpTrace 69 = { fpStart with timeLeft := (6980579422424315 : ℚ) / 2251799813685248 } := by
    rw [(by norm_num : (69 : ℕ) = 68 + 1), step, s68]
    exact fpTick_pos_eq _ ((900719925474105 : ℚ) / 281474976710656) ((6980579422424315 : ℚ) / 2251799813685248) rfl rfl rfl rfl rfl (by norm_num)
      (fpSub_eq_pos _ _ (1) (6980579422424315) (by norm_num [dTenth]) (by norm_num [dTenth])
        (by norm_num [dTenth]) (roundTiesEven_eq_of _ (6980579422424315) (by norm_num [dTenth]) (by norm_num [dTenth]))
        (by norm_num))
  have s70 : fpTrace 70 = { fpStart with timeLeft := (3377699720527895 : ℚ) / 1125899906842624 } := by
    rw [(by norm_num : (70 : ℕ) = 69 + 1), step, s69]
    exact fpTick_pos_eq _ ((6980579422424315 : ℚ) / 2251799813685248) ((3377699720527895 : ℚ) / 1125899906842624) rfl rfl rfl rfl rfl (by norm_num)
      (fpSub_eq_pos _ _ (1) (6755399441055790) (by norm_num [dTenth]) (by norm_num [dTenth])
        (by norm_num [dTenth]) (roundTiesEven_eq_of _ (6755399441055790) (by norm_num [dTenth]) (by norm_num [dTenth]))
        (by norm_num))
  have s71 : fpTrace 71 = { fpStart with timeLeft := (6530219459687265 : ℚ) / 2251799813685248 } := by
    rw [(by norm_num : (71 : ℕ) = 70 + 1), step, s70]
    exact fpTick_pos_eq _ ((3377699720527895 : ℚ) / 1125899906842624) ((6530219459687265 : ℚ) / 2251799813685248) rfl rfl rfl rfl rfl (by norm_num)
      (fpSub_eq_pos _ _ (1) (6530219459687265) (by norm_num [dTenth]) (by norm_num [dTenth])
        (by norm_num [dTenth]) (roundTiesEven_eq_of _ (6530219459687265) (by norm_num [dTenth]) (by norm_num [dTenth]))
        (by norm_num))
  have s72 : fpTrace 72 = { fpStart with timeLeft := (1576259869579685 : ℚ) / 562949953421312 } := by
    rw [(by norm_num : (72 : ℕ) = 71 + 1), step, s71]
    exact fpTick_pos_eq _ ((6530219459687265 : ℚ) / 2251799813685248) ((1576259869579685 : ℚ) / 562949953421312) rfl rfl rfl rfl rfl (by norm_num)
      (fpSub_eq_pos _ _ (1) (6305039478318740) (by norm_num [dTenth]) (by norm_num [dTenth])
        (by norm_num [dTenth]) (roundTiesEven_eq_of _ (6305039478318740) (by norm_num [dTenth]) (by norm_num [dTenth]))
        (by norm_num))
  have s73 : fpTrace 73 = { fpStart with timeLeft := (6079859496950215 : ℚ) / 2251799813685248 } := by
    rw [(by norm_num : (73 : ℕ) = 72 + 1), step, s72]
    exact fpTick_pos_eq _ ((1576259869579685 : ℚ) / 562949953421312) ((6079859496950215 : ℚ) / 2251799813685248) rfl rfl rfl rfl rfl (by norm_num)
      (fpSub_eq_pos _ _ (1) (6079859496950215) (by norm_num [dTenth]) (by norm_num [dTenth])
        (by norm_num [dTenth]) (roundTiesEven_eq_of _ (6079859496950215) (by norm_num [dTenth]) (by norm_num [dTenth]))
        (by norm_num))
  have s74 : fpTrace 74 = { fpStart with timeLeft := (2927339757790845 : ℚ) / 1125899906842624 } := by
    rw [(by norm_num : (74 : ℕ) = 73 + 1), step, s73]
    exact fpTick_pos_eq _ ((6079859496950215 : ℚ) / 2251799813685248) ((2927339757790845 : ℚ) / 1125899906842624) rfl rfl rfl rfl rfl (by norm_num)
      (fpSub_eq_pos _ _ (1) (5854679515581690) (by norm_num [dTenth]) (by norm_num [dTenth])
        (by norm_num [dTenth]) (roundTiesEven_eq_of _ (5854679515581690) (by norm_num [dTenth]) (by norm_num [dTenth]))
        (by norm_num))
  have s75 : fpTrace 75 = { fpStart with timeLeft := (5629499534213165 : ℚ) / 2251799813685248 } := by
    rw [(by norm_num : (75 : ℕ) = 74 + 1), step, s74]
    exact fpTick_pos_eq _ ((2927339757790845 : ℚ) / 1125899906842624) ((5629499534213165 : ℚ) / 2251799813685248) rfl rfl rfl rfl rfl (by norm_num)
      (fpSub_eq_pos _ _ (1) (5629499534213165) (by norm_num [dTenth]) (by norm_num [dTenth])
        (by norm_num [dTenth]) (roundTiesEven_eq_of _ (5629499534213165) (by norm_num [dTenth]) (by norm_num [dTenth]))
        (by norm_num))
  have s76 : fpTrace 76 = { fpStart with timeLeft := (168884986026395 : ℚ) / 70368744177664 } := by
    rw [(by norm_num : (76 : ℕ) = 75 + 1), step, s75]
    exact fpTick_pos_eq _ ((5629499534213165 : ℚ) / 2251799813685248) ((168884986026395 : ℚ) / 70368744177664) rfl rfl rfl rfl rfl (by norm_num)
      (fpSub_eq_pos _ _ (1) (5404319552844640) (by norm_num [dTenth]) (by norm_num [dTenth])
        (by norm_num [dTenth]) (roundTiesEven_eq_of _ (5404319552844640) (by norm_num [dTenth]) (by norm_num [dTenth]))
        (by norm_num))
  have s77 : fpTrace 77 = { fpStart with timeLeft := (5179139571476115 : ℚ) / 2251799813685248 } := by
    rw [(by norm_num : (77 : ℕ) = 76 + 1), step, s76]
    exact fpTick_pos_eq _ ((168884986026395 : ℚ) / 70368744177664) ((5179139571476115 : ℚ) / 2251799813685248) rfl rfl rfl rfl rfl (by norm_num)
      (fpSub_eq_pos _ _ (1) (5179139571476115) (by norm_num [dTenth]) (by norm_num [dTenth])
        (by norm_num [dTenth]) (roundTiesEven_eq_of _ (5179139571476115) (by norm_num [dTenth]) (by norm_num [dTenth]))
        (by norm_num))
  have s78 : fpTrace 78 = { fpStart with timeLeft := (2476979795053795 : ℚ) / 1125899906842624 } := by
    rw [(by norm_num : (78 : ℕ) = 77 + 1), step, s77]
    exact fpTick_pos_eq _ ((5179139571476115 : ℚ) / 2251799813685248) ((2476979795053795 : ℚ) / 1125899906842624) rfl rfl rfl rfl rfl (by norm_num)
      (fpSub_eq_pos _ _ (1) (4953959590107590) (by norm_num [dTenth]) (by norm_num [dTenth])
        (by norm_num [dTenth]) (roundTiesEven_eq_of _ (4953959590107590) (by norm_num [dTenth]) (by norm_num [dTenth]))
        (by norm_num))
  have s79 : fpTrace 79 = { fpStart with timeLeft := (4728779608739065 : ℚ) / 2251799813685248 } := by
    rw [(by norm_num : (79 : ℕ) = 78 + 1), step, s78]
    exact fpTick_pos_eq _ ((2476979795053795 : ℚ) / 1125899906842624) ((4728779608739065 : ℚ) / 2251799813685248) rfl rfl rfl rfl rfl (by norm_num)
      (fpSub_eq_pos _ _ (1) (4728779608739065) (by norm_num [dTenth]) (by norm_num [dTenth])
        (by norm_num [dTenth]) (roundTiesEven_eq_of _ (4728779608739065) (by norm_num [dTenth]) (by norm_num [dTenth]))
        (by norm_num))
  have s80 : fpTrace 80 = { fpStart with timeLeft := (1125899906842635 : ℚ) / 562949953421312 } := by
    rw [(by norm_num : (80 : ℕ) = 79 + 1), step, s79]
    exact fpTick_pos_eq _ ((4728779608739065 : ℚ) / 2251799813685248) ((1125899906842635 : ℚ) / 562949953421312) rfl rfl rfl rfl rfl (by norm_num)
      (fpSub_eq_pos _ _ (1) (4503599627370540) (by norm_num [dTenth]) (by norm_num [dTenth])
        (by norm_num [dTenth]) (roundTiesEven_eq_of _ (4503599627370540) (by norm_num [dTenth]) (by norm_num [dTenth]))
        (by norm_num))
  have s81 : fpTrace 81 = { fpStart with timeLeft := (4278419646002015 : ℚ) / 2251799813685248 } := by
    rw [(by norm_num : (81 : ℕ) = 80 + 1), step, s80]
    exact fpTick_pos_eq _ ((1125899906842635 : ℚ) / 562949953421312) ((4278419646002015 : ℚ) / 2251799813685248) rfl rfl rfl rfl rfl (by norm_num)
      (fpSub_eq_pos _ _ (0) (8556839292004030) (by norm_num [dTenth]) (by norm_num [dTenth])
        (by norm_num [dTenth]) (roundTiesEven_eq_of _ (8556839292004030) (by norm_num [dTenth]) (by norm_num [dTenth]))
        (by norm_num))
  have s82 : fpTrace 82 = { fpStart with timeLeft := (2026619832316745 : ℚ) / 1125899906842624 } := by
    rw [(by norm_num : (82 : ℕ) = 81 + 1), step, s81]
    exact fpTick_pos_eq _ ((4278419646002015 : ℚ) / 2251799813685248) ((2026619832316745 : ℚ) / 1125899906842624) rfl rfl rfl rfl rfl (by norm_num)
      (fpSub_eq_pos _ _ (0) (8106479329266980) (by norm_num [dTenth]) (by norm_num [dTenth])
        (by norm_num [dTenth]) (roundTiesEven_eq_of _ (8106479329266980) (by norm_num [dTenth]) (by norm_num [dTenth]))
        (by norm_num))
  have s83 : fpTrace 83 = { fpStart with timeLeft := (3828059683264965 : ℚ) / 2251799813685248 } := by
    rw [(by norm_num : (83 : ℕ) = 82 + 1), step, s82]
    exact fpTick_pos_eq _ ((2026619832316745 : ℚ) / 1125899906842624) ((3828059683264965 : ℚ) / 2251799813685248) rfl rfl rfl rfl rfl (by norm_num)
      (fpSub_eq_pos _ _ (0) (7656119366529930) (by norm_num [dTenth]) (by norm_num [dTenth])
        (by norm_num [dTenth]) (roundTiesEven_eq_of _ (7656119366529930) (by norm_num [dTenth]) (by norm_num [dTenth]))
        (by norm_num))
  have s84 : fpTrace 84 = { fpStart with timeLeft := (450359962737055 : ℚ) / 281474976710656 } := by
    rw [(by norm_num : (84 : ℕ) = 83 + 1), step, s83]
    exact fpTick_pos_eq _ ((3828059683264965 : ℚ) / 2251799813685248) ((450359962737055 : ℚ) / 281474976710656) rfl rfl rfl rfl rfl (by norm_num)
      (fpSub_eq_pos _ _ (0) (7205759403792880) (by norm_num [dTenth]) (by norm_num [dTenth])
        (by norm_num [dTenth]) (roundTiesEven_eq_of _ (7205759403792880) (by norm_num [dTenth]) (by norm_num [dTenth]))
        (by norm_num))
  have s85 : fpTrace 85 = { fpStart with timeLeft := (3377699720527915 : ℚ) / 2251799813685248 } := by
    rw [(by norm_num : (85 : ℕ) = 84 + 1), step, s84]
    exact fpTick_pos_eq _ ((450359962737055 : ℚ) / 281474976710656) ((3377699720527915 : ℚ) / 2251799813685248) rfl rfl rfl rfl rfl (by norm_num)
      (fpSub_eq_pos _ _ (0) (6755399441055830) (by norm_num [dTenth]) (by norm_num [dTenth])
        (by norm_num [dTenth]) (roundTiesEven_eq_of _ (6755399441055830) (by norm_num [dTenth]) (by norm_num [dTenth]))
        (by norm_num))
  have s86 : fpTrace 86 = { fpStart with timeLeft := (1576259869579695 : ℚ) / 1125899906842624 } := by
    rw [(by norm_num : (86 : ℕ) = 85 + 1), step, s85]
    exact fpTick_pos_eq _ ((3377699720527915 : ℚ) / 2251799813685248) ((1576259869579695 : ℚ) / 1125899906842624) rfl rfl rfl rfl rfl (by norm_num)
      (fpSub_eq_pos _ _ (0) (6305039478318780) (by norm_num [dTenth]) (by norm_num [dTenth])
        (by norm_num [dTenth]) (roundTiesEven_eq_of _ (6305039478318780) (by norm_num [dTenth]) (by norm_num [dTenth]))
        (by norm_num))
  have s87 : fpTrace 87 = { fpStart with timeLeft := (2927339757790865 : ℚ) / 2251799813685248 } := by
    rw [(by norm_num : (87 : ℕ) = 86 + 1), step, s86]
    exact fpTick_pos_eq _ ((1576259869579695 : ℚ) / 1125899906842624) ((2927339757790865 : ℚ) / 2251799813685248) rfl rfl rfl rfl rfl (by norm_num)
      (fpSub_eq_pos _ _ (0) (5854679515581730) (by norm_num [dTenth]) (by norm_num [dTenth])
        (by norm_num [dTenth]) (roundTiesEven_eq_of _ (5854679515581730) (by norm_num [dTenth]) (by norm_num [dTenth]))
        (by norm_num))
  have s88 : fpTrace 88 = { fpStart with timeLeft := (675539944105585 : ℚ) / 562949953421312 } := by
    rw [(by norm_num : (88 : ℕ) = 87 + 1), step, s87]
    exact fpTick_pos_eq _ ((2927339757790865 : ℚ) / 2251799813685248) ((675539944105585 : ℚ) / 562949953421312) rfl rfl rfl rfl rfl (by norm_num)
      (fpSub_eq_pos _ _ (0) (5404319552844680) (by norm_num [dTenth]) (by norm_num [dTenth])
        (by norm_num [dTenth]) (roundTiesEven_eq_of _ (5404319552844680) (by norm_num [dTenth]) (by norm_num [dTenth]))
        (by norm_num))
  have s89 : fpTrace 89 = { fpStart with timeLeft := (2476979795053815 : ℚ) / 2251799813685248 } := by
    rw [(by norm_num : (89 : ℕ) = 88 + 1), step, s88]
    exact fpTick_pos_eq _ ((675539944105585 : ℚ) / 562949953421312) ((2476979795053815 : ℚ) / 2251799813685248) rfl rfl rfl rfl rfl (by norm_num)
      (fpSub_eq_pos _ _ (0) (4953959590107630) (by norm_num [dTenth]) (by norm_num [dTenth])
        (by norm_num [dTenth]) (roundTiesEven_eq_of _ (4953959590107630) (by norm_num [dTenth]) (by norm_num [dTenth]))
        (by norm_num))
  have s90 : fpTrace 90 = { fpStart with timeLeft := (1125899906842645 : ℚ) / 1125899906842624 } := by
    rw [(by norm_num : (90 : ℕ) = 89 + 1), step, s89]
    exact fpTick_pos_eq _ ((2476979795053815 : ℚ) / 2251799813685248) ((1125899906842645 : ℚ) / 1125899906842624) rfl rfl rfl rfl rfl (by norm_num)
      (fpSub_eq_pos _ _ (0) (4503599627370580) (by norm_num [dTenth]) (by norm_num [dTenth])
        (by norm_num [dTenth]) (roundTiesEven_eq_of _ (4503599627370580) (by norm_num [dTenth]) (by norm_num [dTenth]))
        (by norm_num))
  have s91 : fpTrace 91 = { fpStart with timeLeft := (8106479329267061 : ℚ) / 9007199254740992 } := by
    rw [(by norm_num : (91 : ℕ) = 90 + 1), step, s90]
    exact fpTick_pos_eq _ ((1125899906842645 : ℚ) / 1125899906842624) ((8106479329267061 : ℚ) / 9007199254740992) rfl rfl rfl rfl rfl (by norm_num)
      (fpSub_eq_pos _ _ (-1) (8106479329267061) (by norm_num [dTenth]) (by norm_num [dTenth])
        (by norm_num [dTenth]) (roundTiesEven_eq_of _ (8106479329267061) (by norm_num [dTenth]) (by norm_num [dTenth]))
        (by norm_num))
  have s92 : fpTrace 92 = { fpStart with timeLeft := (3602879701896481 : ℚ) / 4503599627370496 } := by
    rw [(by norm_num : (92 : ℕ) = 91 + 1), step, s91]
    exact fpTick_pos_eq _ ((8106479329267061 : ℚ) / 9007199254740992) ((3602879701896481 : ℚ) / 4503599627370496) rfl rfl rfl rfl rfl (by norm_num)
      (fpSub_eq_pos _ _ (-1) (7205759403792962) (by norm_num [dTenth]) (by norm_num [dTenth])
        (by norm_num [dTenth]) (roundTiesEven_eq_of _ (7205759403792962) (by norm_num [dTenth]) (by norm_num [dTenth]))
        (by norm_num))
  have s93 : fpTrace 93 = { fpStart with timeLeft := (6305039478318863 : ℚ) / 9007199254740992 } := by
    rw [(by norm_num : (93 : ℕ) = 92 + 1), step, s92]
    exact fpTick_pos_eq _ ((3602879701896481 : ℚ) / 4503599627370496) ((6305039478318863 : ℚ) / 9007199254740992) rfl rfl rfl rfl rfl (by norm_num)
      (fpSub_eq_pos _ _ (-1) (6305039478318863) (by norm_num [dTenth]) (by norm_num [dTenth])
        (by norm_num [dTenth]) (roundTiesEven_eq_of _ (6305039478318863) (by norm_num [dTenth]) (by norm_num [dTenth]))
        (by norm_num))
  have s94 : fpTrace 94 = { fpStart with timeLeft := (1351079888211191 : ℚ) / 2251799813685248 } := by
    rw [(by norm_num : (94 : ℕ) = 93 + 1), step, s93]
    exact fpTick_pos_eq _ ((6305039478318863 : ℚ) / 9007199254740992) ((1351079888211191 : ℚ) / 2251799813685248) rfl rfl rfl rfl rfl (by norm_num)
      (fpSub_eq_pos _ _ (-1) (5404319552844764) (by norm_num [dTenth]) (by norm_num [dTenth])
        (by norm_num [dTenth]) (roundTiesEven_eq_of _ (5404319552844764) (by norm_num [dTenth]) (by norm_num [dTenth]))
        (by norm_num))
  have s95 : fpTrace 95 = { fpStart with timeLeft := (4503599627370665 : ℚ) / 9007199254740992 } := by
    rw [(by norm_num : (95 : ℕ) = 94 + 1), step, s94]
    exact fpTick_pos_eq _ ((1351079888211191 : ℚ) / 2251799813685248) ((4503599627370665 : ℚ) / 9007199254740992) rfl rfl rfl rfl rfl (by norm_num)
      (fpSub_eq_pos _ _ (-1) (4503599627370665) (by norm_num [dTenth]) (by norm_num [dTenth])
        (by norm_num [dTenth]) (roundTiesEven_eq_of _ (4503599627370665) (by norm_num [dTenth]) (by norm_num [dTenth]))
        (by norm_num))
  have s96 : fpTrace 96 = { fpStart with timeLeft := (1801439850948283 : ℚ) / 4503599627370496 } := by
    rw [(by norm_num : (96 : ℕ) = 95 + 1), step, s95]
    exact fpTick_pos_eq _ ((4503599627370665 : ℚ) / 9007199254740992) ((1801439850948283 : ℚ) / 4503599627370496) rfl rfl rfl rfl rfl (by norm_num)
      (fpSub_eq_pos _ _ (-2) (7205759403793132) (by norm_num [dTenth]) (by norm_num [dTenth])
        (by norm_num [dTenth]) (roundTiesEven_eq_tie_up _ (7205759403793131) (by norm_num [dTenth]) (by omega))
        (by norm_num))
  have s97 : fpTrace 97 = { fpStart with timeLeft := (2702159776422467 : ℚ) / 9007199254740992 } := by
    rw [(by norm_num : (97 : ℕ) = 96 + 1), step, s96]
    exact fpTick_pos_eq _ ((1801439850948283 : ℚ) / 4503599627370496) ((2702159776422467 : ℚ) / 9007199254740992) rfl rfl rfl rfl rfl (by norm_num)
      (fpSub_eq_pos _ _ (-2) (5404319552844934) (by norm_num [dTenth]) (by norm_num [dTenth])
        (by norm_num [dTenth]) (roundTiesEven_eq_tie_up _ (5404319552844933) (by norm_num [dTenth]) (by omega))
        (by norm_num))
  have s98 : fpTrace 98 = { fpStart with timeLeft := (7205759403793471 : ℚ) / 36028797018963968 } := by
    rw [(by norm_num : (98 : ℕ) = 97 + 1), step, s97]
    exact fpTick_pos_eq _ ((2702159776422467 : ℚ) / 9007199254740992) ((7205759403793471 : ℚ) / 36028797018963968) rfl rfl rfl rfl rfl (by norm_num)
      (fpSub_eq_pos _ _ (-3) (7205759403793471) (by norm_num [dTenth]) (by norm_num [dTenth])
        (by norm_num [dTenth]) (roundTiesEven_eq_of _ (7205759403793471) (by norm_num [dTenth]) (by norm_num [dTenth]))
        (by norm_num))
  have s99 : fpTrace 99 = { fpStart with timeLeft := (1801439850948537 : ℚ) / 18014398509481984 } := by
    rw [(by norm_num : (99 : ℕ) = 98 + 1), step, s98]
    exact fpTick_pos_eq _ ((7205759403793471 : ℚ) / 36028797018963968) ((1801439850948537 : ℚ) / 18014398509481984) rfl rfl rfl rfl rfl (by norm_num)
      (fpSub_eq_pos _ _ (-4) (7205759403794148) (by norm_num [dTenth]) (by norm_num [dTenth])
        (by norm_num [dTenth]) (roundTiesEven_eq_of _ (7205759403794148) (by norm_num [dTenth]) (by norm_num [dTenth]))
        (by norm_num))
  have s100 : fpTrace 100 = { fpStart with timeLeft := (677 : ℚ) / 36028797018963968 } := by
    rw [(by norm_num : (100 : ℕ) = 99 + 1), step, s99]
    exact fpTick_pos_eq _ ((1801439850948537 : ℚ) / 18014398509481984) ((677 : ℚ) / 36028797018963968) rfl rfl rfl rfl rfl (by norm_num)
      (fpSub_eq_pos _ _ (-46) (5954954976034816) (by norm_num [dTenth]) (by norm_num [dTenth])
        (by norm_num [dTenth]) (roundTiesEven_eq_of _ (5954954976034816) (by norm_num [dTenth]) (by norm_num [dTenth]))
        (by norm_num))
  have s101 : fpTrace 101 = { fpStart with timeLeft := (-450359962736965 : ℚ) / 4503599627370496 } := by
    rw [(by norm_num : (101 : ℕ) = 100 + 1), step, s100]
    exact fpTick_pos_eq _ ((677 : ℚ) / 36028797018963968) ((-450359962736965 : ℚ) / 4503599627370496) rfl rfl rfl rfl rfl (by norm_num)
      (fpSub_eq_neg _ _ (-4) (-7205759403791440) (by norm_num [dTenth]) (by norm_num [dTenth])
        (by norm_num [dTenth]) (roundTiesEven_eq_of _ (-7205759403791440) (by norm_num [dTenth]) (by norm_num [dTenth]))
        (by norm_num))
  refine ⟨fpTrace_reachable 101, ?_, ?_⟩
  · rw [s101]
    show (-450359962736965 : ℚ) / 4503599627370496 < 0
    norm_num
  · rw [s100]
    show (0 : ℚ) < (677 : ℚ) / 36028797018963968
    norm_num

end SumGame
